import Mathlib

/-!
Verification of the NFL scoreboard fetch-and-shape pipeline
(source: fetch_nfl_games.py).

The Python program is shallowly embedded: JSON-like Python values become
the inductive type PyVal, dictionaries become association lists with
string keys in insertion order, and fallible Python code (attribute
errors, index errors, int() conversion errors, ...) is modelled in the
Except monad, with the thrown string naming the Python exception class.
In-place dictionary mutation is modelled by explicit state passing:
a statement d[k] = v becomes a rebinding of d to dset d k v.
Randomness (random.choice) is modelled by an explicit index parameter:
quantifying the theorems over that parameter covers every possible draw.

Known modelling boundaries, none of which is exercised by any theorem
below: dictionary keys are strings (Python permits other hashable keys;
inserting under a non-string key is modelled as a distinguished error),
Python floats are modelled as rationals, and convert_to_pacific's
timezone-database-dependent formatting is an explicit function
parameter (its try/except wrapper is embedded faithfully).
-/

/-- A Python/JSON-like runtime value as used by fetch_nfl_games.py. -/
inductive PyVal where
  | none : PyVal
  | bool (b : Bool) : PyVal
  | int (n : Int) : PyVal
  | float (q : ℚ) : PyVal
  | str (s : String) : PyVal
  | list (xs : List PyVal) : PyVal
  | dict (kvs : List (String × PyVal)) : PyVal

/-- Structural (Python ==) equality test on PyVal values. -/
def PyVal.beq : PyVal → PyVal → Bool
  | .none, .none => true
  | .bool a, .bool b => a == b
  | .int a, .int b => a == b
  | .float a, .float b => a == b
  | .str a, .str b => a == b
  | .list [], .list [] => true
  | .list (x :: xs), .list (y :: ys) => PyVal.beq x y && PyVal.beq (.list xs) (.list ys)
  | .dict [], .dict [] => true
  | .dict ((k, v) :: xs), .dict ((k2, v2) :: ys) =>
      k == k2 && PyVal.beq v v2 && PyVal.beq (.dict xs) (.dict ys)
  | _, _ => false

theorem PyVal.eq_of_beq : ∀ (a b : PyVal), PyVal.beq a b = true → a = b := by
  intro a b
  induction a, b using PyVal.beq.induct with
  | case1 => intro _; rfl
  | case2 a b => intro h; simp only [PyVal.beq] at h; rw [beq_iff_eq.mp h]
  | case3 a b => intro h; simp only [PyVal.beq] at h; rw [beq_iff_eq.mp h]
  | case4 a b => intro h; simp only [PyVal.beq] at h; rw [beq_iff_eq.mp h]
  | case5 a b => intro h; simp only [PyVal.beq] at h; rw [beq_iff_eq.mp h]
  | case6 => intro _; rfl
  | case7 x xs y ys ih1 ih2 =>
      intro h
      simp only [PyVal.beq, Bool.and_eq_true] at h
      have h1 := ih1 h.1
      have h2 := ih2 h.2
      injection h2 with h2
      rw [h1, h2]
  | case8 => intro _; rfl
  | case9 k v xs k2 v2 ys ih1 ih2 =>
      intro h
      simp only [PyVal.beq, Bool.and_eq_true] at h
      obtain ⟨⟨hk, hv⟩, hrest⟩ := h
      have h1 := ih1 hv
      have h2 := ih2 hrest
      injection h2 with h2
      rw [beq_iff_eq.mp hk, h1, h2]
  | case10 a b h1 h2 h3 h4 h5 h6 h7 h8 h9 =>
      intro h
      exfalso
      cases a <;> cases b <;> try simp [PyVal.beq] at h
      · exact h1 rfl rfl
      · exact h2 _ _ rfl rfl
      · exact h3 _ _ rfl rfl
      · exact h4 _ _ rfl rfl
      · exact h5 _ _ rfl rfl

theorem PyVal.beq_refl : ∀ (a : PyVal), PyVal.beq a a = true
  | .none => by simp [PyVal.beq]
  | .bool b => by simp [PyVal.beq]
  | .int n => by simp [PyVal.beq]
  | .float q => by simp [PyVal.beq]
  | .str s => by simp [PyVal.beq]
  | .list [] => by simp [PyVal.beq]
  | .list (x :: xs) => by
      simp only [PyVal.beq, Bool.and_eq_true]
      exact ⟨PyVal.beq_refl x, PyVal.beq_refl (.list xs)⟩
  | .dict [] => by simp [PyVal.beq]
  | .dict ((k, v) :: xs) => by
      simp only [PyVal.beq, Bool.and_eq_true, beq_self_eq_true]
      exact ⟨⟨trivial, PyVal.beq_refl v⟩, PyVal.beq_refl (.dict xs)⟩

instance : DecidableEq PyVal := fun a b =>
  decidable_of_iff (PyVal.beq a b = true)
    ⟨PyVal.eq_of_beq a b, fun h => h ▸ PyVal.beq_refl a⟩

/-- Python truthiness (bool(x)). -/
def isTruthy : PyVal → Bool
  | .none => false
  | .bool b => b
  | .int n => decide (n ≠ 0)
  | .float q => decide (q ≠ 0)
  | .str s => !(s == "")
  | .list xs => !xs.isEmpty
  | .dict kvs => !kvs.isEmpty

/-- Python x == s for a string literal s; comparison across types is False. -/
def pyEqStr : PyVal → String → Bool
  | .str t, s => t == s
  | _, _ => false

/-- Python x == n for an int literal n; bools and equal floats compare equal to ints. -/
def pyEqInt : PyVal → Int → Bool
  | .int m, n => m == n
  | .bool b, n => (if b then (1 : Int) else 0) == n
  | .float q, n => q == (n : ℚ)
  | _, _ => false

/-- A Python dict with string keys, as an association list in insertion order. -/
abbrev Dict := List (String × PyVal)

/-- First-match association-list lookup (Python dict lookup). -/
def alookup : Dict → String → Option PyVal
  | [], _ => Option.none
  | (k, v) :: rest, key => if k = key then some v else alookup rest key

/-- Python d[key] = v: update in place if the key is present, else append
(Python dicts preserve insertion order). -/
def dset : Dict → String → PyVal → Dict
  | [], key, v => [(key, v)]
  | (k, w) :: rest, key, v =>
      if k = key then (k, v) :: rest else (k, w) :: dset rest key v

/-- Python d.pop(key, None): remove the key if present. -/
def derase : Dict → String → Dict
  | [], _ => []
  | (k, w) :: rest, key => if k = key then rest else (k, w) :: derase rest key

/-- Python key in d for a dict d. -/
def containsKey (d : Dict) (key : String) : Bool :=
  d.any (fun kv => kv.1 == key)

/-- Python obj.get(key, dflt): AttributeError unless obj is a dict. -/
def pyGet (v : PyVal) (key : String) (dflt : PyVal) : Except String PyVal :=
  match v with
  | .dict kvs => pure ((alookup kvs key).getD dflt)
  | _ => Except.error "AttributeError"

/-- Python obj[i] for a non-negative integer index, as used in the source (x[0]). -/
def pyIndex (v : PyVal) (i : Nat) : Except String PyVal :=
  match v with
  | .list xs =>
      match xs.get? i with
      | some x => pure x
      | Option.none => Except.error "IndexError"
  | .str s =>
      match s.data.get? i with
      | some c => pure (.str (String.mk [c]))
      | Option.none => Except.error "IndexError"
  | .dict _ => Except.error "KeyError"
  | _ => Except.error "TypeError"

/-- Iterating a Python value: lists yield elements, strings yield 1-character
strings, dicts yield their keys; other values are not iterable. -/
def asList : PyVal → Except String (List PyVal)
  | .list xs => pure xs
  | .str s => pure (s.data.map (fun c => .str (String.mk [c])))
  | .dict kvs => pure (kvs.map (fun kv => .str kv.1))
  | _ => Except.error "TypeError"

/-- Python v[:n] slicing as used in the source. -/
def pySlice (v : PyVal) (n : Nat) : Except String PyVal :=
  match v with
  | .list xs => pure (.list (xs.take n))
  | .str s => pure (.str (String.mk (s.data.take n)))
  | _ => Except.error "TypeError"

/-- Decimal-digit accumulation over a char list; fails on a non-digit. -/
def digitsVal : Nat → List Char → Option Nat
  | acc, [] => some acc
  | acc, c :: rest =>
      if c.isDigit then digitsVal (acc * 10 + (c.toNat - 48)) rest
      else Option.none

/-- Python int(s) for a string: optional surrounding whitespace, optional
sign, decimal digits (underscore separators are not modelled; no claim
exercises them). -/
def pyStrToInt (s : String) : Option Int :=
  let cs := ((s.data.dropWhile Char.isWhitespace).reverse.dropWhile
    Char.isWhitespace).reverse
  match cs with
  | [] => Option.none
  | '+' :: rest =>
      if rest = [] then Option.none
      else (digitsVal 0 rest).map (fun n => (n : Int))
  | '-' :: rest =>
      if rest = [] then Option.none
      else (digitsVal 0 rest).map (fun n => -(n : Int))
  | _ => (digitsVal 0 cs).map (fun n => (n : Int))

/-- Python int(x): ints pass through, bools widen, floats truncate toward
zero, strings parse or raise ValueError, everything else raises TypeError. -/
def pyIntE : PyVal → Except String Int
  | .int n => pure n
  | .bool b => pure (if b then 1 else 0)
  | .float q => pure (if q ≥ 0 then ⌊q⌋ else ⌈q⌉)
  | .str s =>
      match pyStrToInt s with
      | some n => pure n
      | Option.none => Except.error "ValueError"
  | .none => Except.error "TypeError"
  | .list _ => Except.error "TypeError"
  | .dict _ => Except.error "TypeError"

/-- Python x or y. -/
def pyOr (a b : PyVal) : PyVal := if isTruthy a then a else b

/-- Python n - x for an int literal n, as used in parse_win_probability. -/
def pyRSub (n : Int) (b : PyVal) : Except String PyVal :=
  match b with
  | .int m => pure (.int (n - m))
  | .bool bb => pure (.int (n - (if bb then 1 else 0)))
  | .float q => pure (.float ((n : ℚ) - q))
  | _ => Except.error "TypeError"

/-- Python d[key] subscript on a dict: KeyError when absent, TypeError on
non-subscriptable values. -/
def pyKey (v : PyVal) (key : String) : Except String PyVal :=
  match v with
  | .dict kvs =>
      match alookup kvs key with
      | some x => pure x
      | Option.none => Except.error "KeyError"
  | _ => Except.error "TypeError"

/-- The static broadcaster-logo lookup table NETWORK_LOGOS. -/
def NETWORK_LOGOS : List (String × String) :=
  [("ESPN", "https://upload.wikimedia.org/wikipedia/commons/2/2f/ESPN_wordmark.svg"),
   ("NBC", "https://upload.wikimedia.org/wikipedia/commons/d/3/NBCUniversal_Peacock_Logo.svg"),
   ("FOX", "https://upload.wikimedia.org/wikipedia/commons/c/c0/Fox_Broadcasting_Company_logo_%282019%29.svg"),
   ("CBS", "https://upload.wikimedia.org/wikipedia/commons/a/a5/Paramount_Plus.svg"),
   ("ABC", "https://upload.wikimedia.org/wikipedia/commons/2/2f/ABC-2021-LOGO.svg"),
   ("Prime Video", "https://upload.wikimedia.org/wikipedia/commons/9/90/Prime_Video_logo_%282024%29.svg"),
   ("Amazon", "https://upload.wikimedia.org/wikipedia/commons/9/90/Prime_Video_logo_%282024%29.svg"),
   ("NFL Network", "https://upload.wikimedia.org/wikipedia/en/7/7a/NFL_Network_logo.svg"),
   ("Peacock", "https://upload.wikimedia.org/wikipedia/commons/d/d3/NBCUniversal_Peacock_Logo.svg")]

/-- NETWORK_LOGOS.get(name, ''): non-string names are never in the table. -/
def network_logo (name : PyVal) : PyVal :=
  match name with
  | .str s => .str ((NETWORK_LOGOS.lookup s).getD "")
  | _ => .str ""

/-- convert_to_pacific: the whole try-body is under a bare except returning
the input, so the successful formatting path is abstracted as an explicit
function parameter tz; on a non-string input the very first attribute
access raises, and the original value is returned. -/
def convert_to_pacific (tz : String → String) (v : PyVal) : PyVal :=
  match v with
  | .str s => .str (tz s)
  | _ => v

/-- parse_status: maps the nested ESPN state code to the internal status
string; the state code defaults to 'pre' when absent. -/
def parse_status (status_data : PyVal) : Except String String := do
  let t ← pyGet status_data "type" (.dict [])
  let state ← pyGet t "state" (.str "pre")
  if pyEqStr state "pre" then pure "Scheduled"
  else if pyEqStr state "in" then pure "In Progress"
  else if pyEqStr state "post" then pure "Final"
  else pure "Unknown"

/-- Loop body of parse_broadcasters: de-duplicate by media shortName,
first-seen order, with the seen-set threaded explicitly. -/
def parse_broadcasters_loop : List PyVal → List PyVal → Except String (List PyVal)
  | _, [] => pure []
  | seen, gb :: rest => do
      let media ← pyGet gb "media" (.dict [])
      let name ← pyGet media "shortName" (.str "")
      if isTruthy name && !(seen.contains name) then do
        let b := PyVal.dict
          [("name", name), ("type", .str "TV"), ("logo", network_logo name)]
        let others ← parse_broadcasters_loop (name :: seen) rest
        pure (b :: others)
      else
        parse_broadcasters_loop seen rest

/-- parse_broadcasters. -/
def parse_broadcasters (geo_broadcasts : PyVal) : Except String PyVal := do
  let gbs ← asList geo_broadcasts
  let bs ← parse_broadcasters_loop [] gbs
  pure (.list bs)

/-- parse_odds. -/
def parse_odds (odds_data : PyVal) : Except String PyVal := do
  if !isTruthy odds_data then pure PyVal.none
  else do
    let odds ← if isTruthy odds_data then pyIndex odds_data 0 else pure (.dict [])
    let details ← pyGet odds "details" (.str "")
    let over_under ← pyGet odds "overUnder" (.int 0)
    let provider ← pyGet odds "provider" (.dict [])
    let pname ← pyGet provider "name" (.str "")
    pure (.dict [("spread", details), ("over_under", over_under), ("provider", pname)])

/-- parse_weather. -/
def parse_weather (weather_data : PyVal) : Except String PyVal := do
  if !isTruthy weather_data then pure PyVal.none
  else do
    let temperature ← pyGet weather_data "temperature" (.int 0)
    let condition ← pyGet weather_data "displayValue" (.str "")
    let precipitation ← pyGet weather_data "precipitation" (.int 0)
    let gust ← pyGet weather_data "gust" (.int 0)
    pure (.dict [("temperature", temperature), ("condition", condition),
      ("precipitation", precipitation), ("gust", gust)])

/-- parse_leader. -/
def parse_leader (leader_data : PyVal) : Except String PyVal := do
  if !isTruthy leader_data then pure PyVal.none
  else do
    let ls ← pyGet leader_data "leaders" PyVal.none
    if !isTruthy ls then pure PyVal.none
    else do
      let tops ← pyKey leader_data "leaders"
      let top ← pyIndex tops 0
      let athlete ← pyGet top "athlete" (.dict [])
      let name ← pyGet athlete "displayName" (.str "")
      let short_name ← pyGet athlete "shortName" (.str "")
      let posd ← pyGet athlete "position" (.dict [])
      let position ← pyGet posd "abbreviation" (.str "")
      let headshot ← pyGet athlete "headshot" (.str "")
      let display_value ← pyGet top "displayValue" (.str "")
      let value ← pyGet top "value" (.int 0)
      pure (.dict [("name", name), ("short_name", short_name),
        ("position", position), ("headshot", headshot),
        ("display_value", display_value), ("value", value)])

/-- Loop body of parse_team_leaders: the result dict grows in encounter
order of the three recognized categories. -/
def parse_team_leaders_loop : Dict → List PyVal → Except String Dict
  | result, [] => pure result
  | result, leader :: rest => do
      let name ← pyGet leader "name" (.str "")
      if pyEqStr name "passingLeader" then do
        let v ← parse_leader leader
        parse_team_leaders_loop (dset result "passing" v) rest
      else if pyEqStr name "rushingLeader" then do
        let v ← parse_leader leader
        parse_team_leaders_loop (dset result "rushing" v) rest
      else if pyEqStr name "receivingLeader" then do
        let v ← parse_leader leader
        parse_team_leaders_loop (dset result "receiving" v) rest
      else parse_team_leaders_loop result rest

/-- parse_team_leaders. -/
def parse_team_leaders (leaders_data : PyVal) : Except String PyVal := do
  let ls ← asList leaders_data
  let r ← parse_team_leaders_loop [] ls
  pure (.dict r)

/-- The last_play sub-dict of parse_situation_from_scoreboard; None when the
lastPlay block is falsy. -/
def scoreboard_last_play (last_play : PyVal) : Except String PyVal := do
  if !isTruthy last_play then pure PyVal.none
  else do
    let text ← pyGet last_play "text" (.str "")
    let lpt ← pyGet last_play "type" PyVal.none
    let typetext ←
      match lpt with
      | .dict _ => do
          let lptd ← pyGet last_play "type" (.dict [])
          pyGet lptd "text" (.str "")
      | _ => pure (.str "")
    let yards ← pyGet last_play "statYardage" (.int 0)
    pure (.dict [("text", text), ("type", typetext), ("yards", yards)])

/-- parse_situation_from_scoreboard (the home_abbrev and away_abbrev
arguments are accepted but unused, as in the source). -/
def parse_situation_from_scoreboard
    (situation_data home_abbrev away_abbrev : PyVal) : Except String PyVal := do
  let _ := home_abbrev
  let _ := away_abbrev
  if !isTruthy situation_data then pure PyVal.none
  else do
    let last_play ← pyGet situation_data "lastPlay" (.dict [])
    let poss_id ← pyGet situation_data "possession" (.str "")
    let short_text ← pyGet situation_data "shortDownDistanceText" (.str "")
    let possession_text ← pyGet situation_data "possessionText" (.str "")
    let teamv ← pyGet situation_data "team" PyVal.none
    let poss_abbrev ←
      if isTruthy teamv then do
        let td ← pyGet situation_data "team" (.dict [])
        pyGet td "abbreviation" (.str "")
      else pure (.str "")
    let down ← pyGet situation_data "down" (.int 0)
    let distance ← pyGet situation_data "distance" (.int 0)
    let yard_line ← pyGet situation_data "yardLine" (.int 0)
    let down_distance_text ← pyGet situation_data "downDistanceText" (.str "")
    let is_red_zone ← pyGet situation_data "isRedZone" (.bool false)
    let home_timeouts ← pyGet situation_data "homeTimeouts" (.int 3)
    let away_timeouts ← pyGet situation_data "awayTimeouts" (.int 3)
    let lp ← scoreboard_last_play last_play
    pure (.dict [("down", down), ("distance", distance),
      ("yard_line", yard_line), ("down_distance_text", down_distance_text),
      ("spot_text", short_text), ("possession_text", possession_text),
      ("possession", poss_id), ("possession_short", poss_abbrev),
      ("is_red_zone", is_red_zone), ("home_timeouts", home_timeouts),
      ("away_timeouts", away_timeouts), ("last_play", lp)])

/-- next((c for c in competitors if c.get('homeAway') == side), dict()):
first matching competitor, default empty dict; lazy like the generator. -/
def find_competitor (side : String) : List PyVal → Except String PyVal
  | [] => pure (.dict [])
  | c :: rest => do
      let ha ← pyGet c "homeAway" PyVal.none
      if pyEqStr ha side then pure c else find_competitor side rest

/-- next((r.get('summary', '') for r in records if r.get('type') == 'total'), ''). -/
def find_total_record : List PyVal → Except String PyVal
  | [] => pure (.str "")
  | r :: rest => do
      let t ← pyGet r "type" PyVal.none
      if pyEqStr t "total" then pyGet r "summary" (.str "")
      else find_total_record rest

/-- int(side_data.get('score', 0) or 0): the score extraction of parse_game. -/
def team_score (side_data : PyVal) : Except String Int := do
  let v ← pyGet side_data "score" (.int 0)
  pyIntE (pyOr v (.int 0))

/-- The period loop of parse_game over the zipped linescore lists, with the
running 0-based index made explicit. -/
def parse_periods : Nat → List (PyVal × PyVal) → Except String (List PyVal)
  | _, [] => pure []
  | i, (h, a) :: rest => do
      let av ← pyGet a "value" (.int 0)
      let an ← pyIntE av
      let hv ← pyGet h "value" (.int 0)
      let hn ← pyIntE hv
      let rest2 ← parse_periods (i + 1) rest
      pure (PyVal.dict [("number", .int ((i : Int) + 1)),
        ("type", .str (if 4 ≤ i then "Overtime" else "Regulation")),
        ("away", .dict [("points", .int an)]),
        ("home", .dict [("points", .int hn)])] :: rest2)

/-- Lines 220-226 of parse_game: the situation is parsed from the
competition block only when the status is In Progress, else None. -/
def compute_situation (status : String) (competition home_abbrev away_abbrev :
    PyVal) : Except String PyVal :=
  if status = "In Progress" then do
    let sd ← pyGet competition "situation" PyVal.none
    parse_situation_from_scoreboard sd home_abbrev away_abbrev
  else pure PyVal.none

/-- parse_game: ESPN event record to the internal Game dict, in source
statement order; tz abstracts convert_to_pacific's formatting path. -/
def parse_game (tz : String → String) (event_data : PyVal) : Except String Dict := do
  let competitions ← pyGet event_data "competitions" (.list [.dict []])
  let competition ← pyIndex competitions 0
  let competitors_v ← pyGet competition "competitors" (.list [])
  let competitors ← asList competitors_v
  let home_data ← find_competitor "home" competitors
  let away_data ← find_competitor "away" competitors
  let home_team_info ← pyGet home_data "team" (.dict [])
  let away_team_info ← pyGet away_data "team" (.dict [])
  let home_abbrev ← pyGet home_team_info "abbreviation" (.str "")
  let away_abbrev ← pyGet away_team_info "abbreviation" (.str "")
  let home_score ← team_score home_data
  let away_score ← team_score away_data
  let home_records ← pyGet home_data "records" (.list [])
  let away_records ← pyGet away_data "records" (.list [])
  let home_record ← do
    let l ← asList home_records
    find_total_record l
  let away_record ← do
    let l ← asList away_records
    find_total_record l
  let status_data ← pyGet competition "status" (.dict [])
  let status ← parse_status status_data
  let home_ls_v ← pyGet home_data "linescores" (.list [])
  let away_ls_v ← pyGet away_data "linescores" (.list [])
  let home_ls ← asList home_ls_v
  let away_ls ← asList away_ls_v
  let periods ← parse_periods 0 (home_ls.zip away_ls)
  let situation ← compute_situation status competition home_abbrev away_abbrev
  let eid ← pyGet event_data "id" (.str "")
  let date ← pyGet event_data "date" (.str "")
  let date2 ← pyGet event_data "date" (.str "")
  let ename ← pyGet event_data "name" (.str "")
  let eshort_name ← pyGet event_data "shortName" (.str "")
  let season_v ← pyGet event_data "season" (.dict [])
  let season_year ← pyGet season_v "year" (.int 0)
  let season_v2 ← pyGet event_data "season" (.dict [])
  let season_type ← pyGet season_v2 "type" (.int 0)
  let season_v3 ← pyGet event_data "season" (.dict [])
  let season_type_raw ← pyGet season_v3 "type" PyVal.none
  let week_v ← pyGet event_data "week" (.dict [])
  let week ← pyGet week_v "number" (.int 0)
  let a_id ← pyGet away_team_info "id" (.str "")
  let a_name ← pyGet away_team_info "displayName" (.str "")
  let a_abbr ← pyGet away_team_info "abbreviation" (.str "")
  let a_short ← pyGet away_team_info "shortDisplayName" (.str "")
  let a_logo ← pyGet away_team_info "logo" (.str "")
  let a_color ← pyGet away_team_info "color" (.str "")
  let h_id ← pyGet home_team_info "id" (.str "")
  let h_name ← pyGet home_team_info "displayName" (.str "")
  let h_abbr ← pyGet home_team_info "abbreviation" (.str "")
  let h_short ← pyGet home_team_info "shortDisplayName" (.str "")
  let h_logo ← pyGet home_team_info "logo" (.str "")
  let h_color ← pyGet home_team_info "color" (.str "")
  let venue_v ← pyGet competition "venue" (.dict [])
  let v_name ← pyGet venue_v "fullName" (.str "")
  let venue_v2 ← pyGet competition "venue" (.dict [])
  let v_addr ← pyGet venue_v2 "address" (.dict [])
  let v_city ← pyGet v_addr "city" (.str "")
  let venue_v3 ← pyGet competition "venue" (.dict [])
  let v_addr2 ← pyGet venue_v3 "address" (.dict [])
  let v_state ← pyGet v_addr2 "state" (.str "")
  let venue_v4 ← pyGet competition "venue" (.dict [])
  let v_indoor ← pyGet venue_v4 "indoor" (.bool false)
  let geo ← pyGet competition "geoBroadcasts" (.list [])
  let broadcasters ← parse_broadcasters geo
  let odds_v ← pyGet competition "odds" (.list [])
  let odds ← parse_odds odds_v
  let weather_v ← pyGet competition "weather" (.dict [])
  let weather ← parse_weather weather_v
  let clock ← pyGet status_data "displayClock" (.str "0:00")
  let period ← pyGet status_data "period" (.int 0)
  let sd_type ← pyGet status_data "type" (.dict [])
  let period_detail ← pyGet sd_type "shortDetail" (.str "")
  let a_leaders_v ← pyGet away_data "leaders" (.list [])
  let away_leaders ← parse_team_leaders a_leaders_v
  let h_leaders_v ← pyGet home_data "leaders" (.list [])
  let home_leaders ← parse_team_leaders h_leaders_v
  let _ := home_abbrev
  let _ := away_abbrev
  pure [("id", eid), ("status", .str status),
    ("start_time_utc", date),
    ("start_time_pacific", convert_to_pacific tz date2),
    ("name", ename), ("short_name", eshort_name),
    ("season", .dict [("year", season_year), ("type", season_type),
      ("type_name",
        .str (if pyEqInt season_type_raw 3 then "Postseason" else "Regular Season")),
      ("week", week)]),
    ("away_team", .dict [("id", a_id), ("name", a_name),
      ("abbreviation", a_abbr), ("short_name", a_short), ("logo", a_logo),
      ("color", a_color), ("record", away_record), ("score", .int away_score)]),
    ("home_team", .dict [("id", h_id), ("name", h_name),
      ("abbreviation", h_abbr), ("short_name", h_short), ("logo", h_logo),
      ("color", h_color), ("record", home_record), ("score", .int home_score)]),
    ("venue", .dict [("name", v_name), ("city", v_city), ("state", v_state),
      ("indoor", v_indoor)]),
    ("broadcasters", broadcasters),
    ("scores", .dict [("periods", .list periods),
      ("total", .dict [("away", .int away_score), ("home", .int home_score)])]),
    ("odds", odds), ("weather", weather), ("clock", clock),
    ("period", period), ("period_detail", period_detail),
    ("leaders", .dict [("away", away_leaders), ("home", home_leaders)]),
    ("situation", situation)]

/-- Python d[key] = v where the key is a runtime value. Dict keys are
modelled as strings, so a non-string hashable key is a distinguished model
error (no claim reaches that case); unhashable keys raise TypeError in
Python as well. -/
def dsetV (d : Dict) (key : PyVal) (v : PyVal) : Except String Dict :=
  match key with
  | .str s => pure (dset d s v)
  | .list _ => Except.error "TypeError"
  | .dict _ => Except.error "TypeError"
  | _ => Except.error "ModelGapNonStringKey"

/-- Python len(x). -/
def pyLen : PyVal → Except String Nat
  | .list xs => pure xs.length
  | .str s => pure s.length
  | .dict kvs => pure kvs.length
  | _ => Except.error "TypeError"

/-- Approximate Python str(x): exact for strings, ints, bools and None;
floats and containers are rendered approximately (no claim depends on
the rendering). -/
def pyStrRepr : PyVal → String
  | .str s => s
  | .int n => toString n
  | .bool b => if b then "True" else "False"
  | .none => "None"
  | .float q => toString q
  | .list _ => "[...]"
  | .dict _ => "\x7b...\x7d"

/-- Inner stat loop of parse_full_team_stats. -/
def team_stats_inner : Dict → List PyVal → Except String Dict
  | parsed, [] => pure parsed
  | parsed, stat :: rest => do
      let stat_name ← pyGet stat "name" (.str "")
      if isTruthy stat_name then do
        let value ← pyGet stat "displayValue" (.str "0")
        let label ← pyGet stat "label" stat_name
        let description ← pyGet stat "description" (.str "")
        let entry := PyVal.dict
          [("value", value), ("label", label), ("description", description)]
        let parsed2 ← dsetV parsed stat_name entry
        team_stats_inner parsed2 rest
      else team_stats_inner parsed rest

/-- Outer team loop of parse_full_team_stats. -/
def team_stats_outer : Dict → List PyVal → Except String Dict
  | stats, [] => pure stats
  | stats, team_data :: rest => do
      let side ← pyGet team_data "homeAway" (.str "")
      if !(pyEqStr side "home" || pyEqStr side "away") then
        team_stats_outer stats rest
      else do
        let team_stats_v ← pyGet team_data "statistics" (.list [])
        let ts ← asList team_stats_v
        let parsed ← team_stats_inner [] ts
        let stats2 ← dsetV stats side (.dict parsed)
        team_stats_outer stats2 rest

/-- parse_full_team_stats. -/
def parse_full_team_stats (boxscore : PyVal) : Except String PyVal := do
  let teams_v ← pyGet boxscore "teams" (.list [])
  let teams ← asList teams_v
  let stats ← team_stats_outer [("away", .dict []), ("home", .dict [])] teams
  pure (.dict stats)

/-- The per-athlete stat-value loop of parse_full_player_stats, keyed by
labels while indices stay within the label list. -/
def player_stat_kv : Dict → Nat → List PyVal → PyVal → Except String Dict
  | ps, _, [], _ => pure ps
  | ps, i, val :: rest, cat_labels => do
      let n ← pyLen cat_labels
      if i < n then do
        let key ← pyIndex cat_labels i
        let ps2 ← dsetV ps key val
        player_stat_kv ps2 (i + 1) rest cat_labels
      else player_stat_kv ps (i + 1) rest cat_labels

/-- The athlete loop of parse_full_player_stats. -/
def athletes_loop : List PyVal → PyVal → Except String (List PyVal)
  | [], _ => pure []
  | athlete_data :: rest, cat_labels => do
      let athlete ← pyGet athlete_data "athlete" (.dict [])
      let stats_values_v ← pyGet athlete_data "stats" (.list [])
      let stats_values ← asList stats_values_v
      let player_stats ← player_stat_kv [] 0 stats_values cat_labels
      let pid ← pyGet athlete "id" (.str "")
      let pname ← pyGet athlete "displayName" (.str "")
      let pshort ← pyGet athlete "shortName" (.str "")
      let jersey ← pyGet athlete "jersey" (.str "")
      let pos_raw ← pyGet athlete "position" PyVal.none
      let position ←
        if isTruthy pos_raw then do
          let pd ← pyGet athlete "position" (.dict [])
          pyGet pd "abbreviation" (.str "")
        else pure (.str "")
      let hs_raw ← pyGet athlete "headshot" PyVal.none
      let headshot ←
        match hs_raw with
        | .dict _ => do
            let hd ← pyGet athlete "headshot" (.dict [])
            pyGet hd "href" (.str "")
        | _ => pyGet athlete "headshot" (.str "")
      let entry := PyVal.dict [("id", pid), ("name", pname),
        ("short_name", pshort), ("jersey", jersey), ("position", position),
        ("headshot", headshot), ("stats", .dict player_stats)]
      let others ← athletes_loop rest cat_labels
      pure (entry :: others)

/-- The stat-category loop of parse_full_player_stats. -/
def stat_categories_loop : Dict → List PyVal → Except String Dict
  | team_stats, [] => pure team_stats
  | team_stats, stat_category :: rest => do
      let cat_name ← pyGet stat_category "name" (.str "")
      let cat_labels ← pyGet stat_category "labels" (.list [])
      let cat_descriptions ← pyGet stat_category "descriptions" (.list [])
      let cat_athletes_v ← pyGet stat_category "athletes" (.list [])
      let cat_athletes ← asList cat_athletes_v
      let players_in_cat ← athletes_loop cat_athletes cat_labels
      if !players_in_cat.isEmpty then do
        let entry := PyVal.dict [("labels", cat_labels),
          ("descriptions", cat_descriptions), ("players", .list players_in_cat)]
        let ts2 ← dsetV team_stats cat_name entry
        stat_categories_loop ts2 rest
      else stat_categories_loop team_stats rest

/-- Outer team loop of parse_full_player_stats. -/
def player_stats_outer : Dict → List PyVal → Except String Dict
  | result, [] => pure result
  | result, team_players :: rest => do
      let side ← pyGet team_players "homeAway" (.str "")
      if !(pyEqStr side "home" || pyEqStr side "away") then
        player_stats_outer result rest
      else do
        let cats_v ← pyGet team_players "statistics" (.list [])
        let cats ← asList cats_v
        let team_stats ← stat_categories_loop [] cats
        let r2 ← dsetV result side (.dict team_stats)
        player_stats_outer r2 rest

/-- parse_full_player_stats. -/
def parse_full_player_stats (boxscore : PyVal) : Except String PyVal := do
  let players_v ← pyGet boxscore "players" (.list [])
  let players ← asList players_v
  let r ← player_stats_outer [("away", .dict []), ("home", .dict [])] players
  pure (.dict r)

/-- One entry of parse_scoring_plays. -/
def scoring_play_entry (play : PyVal) : Except String PyVal := do
  let team ← pyGet play "team" (.dict [])
  let clock ← pyGet play "clock" (.dict [])
  let period ← pyGet play "period" (.dict [])
  let play_type ← pyGet play "type" (.dict [])
  let pid ← pyGet play "id" (.str "")
  let seq ← pyGet play "sequenceNumber" (.int 0)
  let p_num ← pyGet period "number" (.int 0)
  let p_type ← pyGet period "type" (.str "")
  let c_val ← pyGet clock "value" (.int 0)
  let c_disp ← pyGet clock "displayValue" (.str "")
  let t_id ← pyGet team "id" (.str "")
  let t_name ← pyGet team "displayName" (.str "")
  let t_abbr ← pyGet team "abbreviation" (.str "")
  let t_logo ← pyGet team "logo" (.str "")
  let ty_id ← pyGet play_type "id" (.str "")
  let ty_text ← pyGet play_type "text" (.str "")
  let ty_abbr ← pyGet play_type "abbreviation" (.str "")
  let text ← pyGet play "text" (.str "")
  let away_score ← pyGet play "awayScore" (.int 0)
  let home_score ← pyGet play "homeScore" (.int 0)
  let scoring_type ← pyGet play "scoringType" (.dict [])
  pure (.dict [("id", pid), ("sequence_number", seq),
    ("period", .dict [("number", p_num), ("type", p_type)]),
    ("clock", .dict [("value", c_val), ("display", c_disp)]),
    ("team", .dict [("id", t_id), ("name", t_name),
      ("abbreviation", t_abbr), ("logo", t_logo)]),
    ("type", .dict [("id", ty_id), ("text", ty_text),
      ("abbreviation", ty_abbr)]),
    ("text", text), ("away_score", away_score), ("home_score", home_score),
    ("scoring_type", scoring_type)])

/-- parse_scoring_plays. -/
def parse_scoring_plays (scoring_plays : PyVal) : Except String PyVal := do
  let ps ← asList scoring_plays
  let entries ← ps.mapM scoring_play_entry
  pure (.list entries)

/-- One play entry inside parse_drives' parse_single_drive. -/
def drive_play_entry (play : PyVal) : Except String PyVal := do
  let play_type ← pyGet play "type" (.dict [])
  let start_info ← pyGet play "start" (.dict [])
  let end_info ← pyGet play "end" (.dict [])
  let pid ← pyGet play "id" (.str "")
  let seq ← pyGet play "sequenceNumber" (.int 0)
  let ty_id ← pyGet play_type "id" (.str "")
  let ty_text ← pyGet play_type "text" (.str "")
  let ty_abbr ← pyGet play_type "abbreviation" (.str "")
  let text ← pyGet play "text" (.str "")
  let short_text ← pyGet play "shortText" (.str "")
  let alt_text ← pyGet play "alternativeText" (.str "")
  let home_score ← pyGet play "homeScore" (.int 0)
  let away_score ← pyGet play "awayScore" (.int 0)
  let period_v ← pyGet play "period" (.dict [])
  let period_num ← pyGet period_v "number" (.int 0)
  let clock_v ← pyGet play "clock" (.dict [])
  let c_val ← pyGet clock_v "value" (.int 0)
  let clock_v2 ← pyGet play "clock" (.dict [])
  let c_disp ← pyGet clock_v2 "displayValue" (.str "")
  let scoring_play ← pyGet play "scoringPlay" (.bool false)
  let priority ← pyGet play "priority" (.bool false)
  let modified ← pyGet play "modified" (.str "")
  let wallclock ← pyGet play "wallclock" (.str "")
  let s_down ← pyGet start_info "down" (.int 0)
  let s_dist ← pyGet start_info "distance" (.int 0)
  let s_yl ← pyGet start_info "yardLine" (.int 0)
  let s_yte ← pyGet start_info "yardsToEndzone" (.int 0)
  let s_pt ← pyGet start_info "possessionText" (.str "")
  let s_ddt ← pyGet start_info "downDistanceText" (.str "")
  let s_sddt ← pyGet start_info "shortDownDistanceText" (.str "")
  let e_down ← pyGet end_info "down" (.int 0)
  let e_dist ← pyGet end_info "distance" (.int 0)
  let e_yl ← pyGet end_info "yardLine" (.int 0)
  let e_yte ← pyGet end_info "yardsToEndzone" (.int 0)
  let e_pt ← pyGet end_info "possessionText" (.str "")
  let e_ddt ← pyGet end_info "downDistanceText" (.str "")
  let e_sddt ← pyGet end_info "shortDownDistanceText" (.str "")
  let stat_yardage ← pyGet play "statYardage" (.int 0)
  let scoring_type ← pyGet play "scoringType" (.dict [])
  pure (.dict [("id", pid), ("sequence_number", seq),
    ("type", .dict [("id", ty_id), ("text", ty_text),
      ("abbreviation", ty_abbr)]),
    ("text", text), ("short_text", short_text),
    ("alternative_text", alt_text),
    ("home_score", home_score), ("away_score", away_score),
    ("period", period_num),
    ("clock", .dict [("value", c_val), ("display", c_disp)]),
    ("scoring_play", scoring_play), ("priority", priority),
    ("modified", modified), ("wallclock", wallclock),
    ("start", .dict [("down", s_down), ("distance", s_dist),
      ("yard_line", s_yl), ("yards_to_endzone", s_yte),
      ("possession_text", s_pt), ("down_distance_text", s_ddt),
      ("short_down_distance_text", s_sddt)]),
    ("end", .dict [("down", e_down), ("distance", e_dist),
      ("yard_line", e_yl), ("yards_to_endzone", e_yte),
      ("possession_text", e_pt), ("down_distance_text", e_ddt),
      ("short_down_distance_text", e_sddt)]),
    ("stat_yardage", stat_yardage), ("scoring_type", scoring_type)])

/-- parse_single_drive, the nested helper of parse_drives. -/
def parse_single_drive (drive : PyVal) : Except String PyVal := do
  let plays_v ← pyGet drive "plays" (.list [])
  let plays_l ← asList plays_v
  let plays ← plays_l.mapM drive_play_entry
  let team ← pyGet drive "team" (.dict [])
  let result_info ← pyGet drive "result" (.str "")
  let start ← pyGet drive "start" (.dict [])
  let endv ← pyGet drive "end" (.dict [])
  let time_elapsed ← pyGet drive "timeElapsed" (.dict [])
  let did ← pyGet drive "id" (.str "")
  let description ← pyGet drive "description" (.str "")
  let t_id ← pyGet team "id" (.str "")
  let t_name ← pyGet team "displayName" (.str "")
  let t_abbr ← pyGet team "abbreviation" (.str "")
  let t_logo ← pyGet team "logo" (.str "")
  let s_period_v ← pyGet start "period" (.dict [])
  let s_period ← pyGet s_period_v "number" (.int 0)
  let s_clock_v ← pyGet start "clock" (.dict [])
  let s_clock ← pyGet s_clock_v "displayValue" (.str "")
  let s_yard ← pyGet start "yardLine" (.int 0)
  let s_text ← pyGet start "text" (.str "")
  let e_period_v ← pyGet endv "period" (.dict [])
  let e_period ← pyGet e_period_v "number" (.int 0)
  let e_clock_v ← pyGet endv "clock" (.dict [])
  let e_clock ← pyGet e_clock_v "displayValue" (.str "")
  let e_yard ← pyGet endv "yardLine" (.int 0)
  let e_text ← pyGet endv "text" (.str "")
  let te_val ← pyGet time_elapsed "value" (.int 0)
  let te_disp ← pyGet time_elapsed "displayValue" (.str "")
  let yards ← pyGet drive "yards" (.int 0)
  let is_score ← pyGet drive "isScore" (.bool false)
  let offense_plays ← pyGet drive "offensivePlays" (.int 0)
  let result ←
    match result_info with
    | .str s => pure (PyVal.str s)
    | _ => pyGet result_info "text" (.str "")
  let short_disp ← pyGet drive "shortDisplayResult" (.str "")
  let disp ← pyGet drive "displayResult" (.str "")
  pure (.dict [("id", did), ("description", description),
    ("team", .dict [("id", t_id), ("name", t_name),
      ("abbreviation", t_abbr), ("logo", t_logo)]),
    ("start", .dict [("period", s_period), ("clock", s_clock),
      ("yard_line", s_yard), ("text", s_text)]),
    ("end", .dict [("period", e_period), ("clock", e_clock),
      ("yard_line", e_yard), ("text", e_text)]),
    ("time_elapsed", .dict [("value", te_val), ("display", te_disp)]),
    ("yards", yards), ("is_score", is_score),
    ("offense_plays", offense_plays), ("result", result),
    ("short_display_result", short_disp), ("display_result", disp),
    ("plays", .list plays)])

/-- parse_drives. -/
def parse_drives (drives_data : PyVal) : Except String PyVal := do
  if !isTruthy drives_data then pure PyVal.none
  else do
    let previous_v ← pyGet drives_data "previous" (.list [])
    let current ← pyGet drives_data "current" (.dict [])
    let prev_l ← asList previous_v
    let parsed_previous ← prev_l.mapM parse_single_drive
    let parsed_current ←
      if isTruthy current then parse_single_drive current
      else pure PyVal.none
    pure (.dict [("previous", .list parsed_previous),
      ("current", parsed_current)])

/-- The last_play sub-parse of parse_full_situation. -/
def full_situation_last_play (last_play : PyVal) : Except String PyVal := do
  if !isTruthy last_play then pure PyVal.none
  else do
    let lp_type ← pyGet last_play "type" (.dict [])
    let lp_start ← pyGet last_play "start" (.dict [])
    let lp_end ← pyGet last_play "end" (.dict [])
    let lid ← pyGet last_play "id" (.str "")
    let ty_id ←
      match lp_type with
      | .dict _ => pyGet lp_type "id" (.str "")
      | _ => pure (.str "")
    let ty_text ←
      match lp_type with
      | .dict _ => pyGet lp_type "text" (.str "")
      | _ => pure (.str (pyStrRepr lp_type))
    let ty_abbr ←
      match lp_type with
      | .dict _ => pyGet lp_type "abbreviation" (.str "")
      | _ => pure (.str "")
    let text ← pyGet last_play "text" (.str "")
    let short_text ← pyGet last_play "shortText" (.str "")
    let alt ← pyGet last_play "alternativeText" (.str "")
    let scoring_play ← pyGet last_play "scoringPlay" (.bool false)
    let priority ← pyGet last_play "priority" (.bool false)
    let stat_yardage ← pyGet last_play "statYardage" (.int 0)
    let period_raw ← pyGet last_play "period" PyVal.none
    let period ←
      match period_raw with
      | .dict _ => do
          let p ← pyGet last_play "period" (.dict [])
          pyGet p "number" (.int 0)
      | _ => pure (.int 0)
    let clock_raw ← pyGet last_play "clock" PyVal.none
    let clock ←
      match clock_raw with
      | .dict _ => do
          let c ← pyGet last_play "clock" (.dict [])
          pyGet c "displayValue" (.str "")
      | _ => pure (.str "")
    let s_down ← pyGet lp_start "down" (.int 0)
    let s_dist ← pyGet lp_start "distance" (.int 0)
    let s_yl ← pyGet lp_start "yardLine" (.int 0)
    let s_yte ← pyGet lp_start "yardsToEndzone" (.int 0)
    let s_ddt ← pyGet lp_start "downDistanceText" (.str "")
    let s_pt ← pyGet lp_start "possessionText" (.str "")
    let e_down ← pyGet lp_end "down" (.int 0)
    let e_dist ← pyGet lp_end "distance" (.int 0)
    let e_yl ← pyGet lp_end "yardLine" (.int 0)
    let e_yte ← pyGet lp_end "yardsToEndzone" (.int 0)
    let e_ddt ← pyGet lp_end "downDistanceText" (.str "")
    let e_pt ← pyGet lp_end "possessionText" (.str "")
    pure (.dict [("id", lid),
      ("type", .dict [("id", ty_id), ("text", ty_text),
        ("abbreviation", ty_abbr)]),
      ("text", text), ("short_text", short_text),
      ("alternative_text", alt), ("scoring_play", scoring_play),
      ("priority", priority), ("stat_yardage", stat_yardage),
      ("period", period), ("clock", clock),
      ("start", .dict [("down", s_down), ("distance", s_dist),
        ("yard_line", s_yl), ("yards_to_endzone", s_yte),
        ("down_distance_text", s_ddt), ("possession_text", s_pt)]),
      ("end", .dict [("down", e_down), ("distance", e_dist),
        ("yard_line", e_yl), ("yards_to_endzone", e_yte),
        ("down_distance_text", e_ddt), ("possession_text", e_pt)])])

/-- parse_full_situation: None exactly when the situation block is falsy. -/
def parse_full_situation (situation_data : PyVal) : Except String PyVal := do
  if !isTruthy situation_data then pure PyVal.none
  else do
    let last_play ← pyGet situation_data "lastPlay" (.dict [])
    let down_distance ← pyGet situation_data "downDistanceText" (.str "")
    let last_play_parsed ← full_situation_last_play last_play
    let down ← pyGet situation_data "down" (.int 0)
    let distance ← pyGet situation_data "distance" (.int 0)
    let yard_line ← pyGet situation_data "yardLine" (.int 0)
    let yards_to_endzone ← pyGet situation_data "yardsToEndzone" (.int 0)
    let short_ddt ← pyGet situation_data "shortDownDistanceText" (.str "")
    let possession_text ← pyGet situation_data "possessionText" (.str "")
    let possession ← pyGet situation_data "possession" (.str "")
    let is_red_zone ← pyGet situation_data "isRedZone" (.bool false)
    let home_timeouts ← pyGet situation_data "homeTimeouts" (.int 3)
    let away_timeouts ← pyGet situation_data "awayTimeouts" (.int 3)
    pure (.dict [("down", down), ("distance", distance),
      ("yard_line", yard_line), ("yards_to_endzone", yards_to_endzone),
      ("down_distance_text", down_distance),
      ("short_down_distance_text", short_ddt),
      ("possession_text", possession_text), ("possession", possession),
      ("is_red_zone", is_red_zone), ("home_timeouts", home_timeouts),
      ("away_timeouts", away_timeouts), ("last_play", last_play_parsed)])

/-- One leader entry of parse_game_leaders. -/
def game_leader_entry (leader : PyVal) : Except String PyVal := do
  let athlete ← pyGet leader "athlete" (.dict [])
  let hs_raw ← pyGet athlete "headshot" (.str "")
  let headshot ←
    match hs_raw with
    | .dict _ => pyGet hs_raw "href" (.str "")
    | _ => pure hs_raw
  let rank ← pyGet leader "rank" (.int 0)
  let name ← pyGet athlete "displayName" (.str "")
  let short_name ← pyGet athlete "shortName" (.str "")
  let jersey ← pyGet athlete "jersey" (.str "")
  let pos_raw ← pyGet athlete "position" PyVal.none
  let position ←
    if isTruthy pos_raw then do
      let pd ← pyGet athlete "position" (.dict [])
      pyGet pd "abbreviation" (.str "")
    else pure (.str "")
  let display_value ← pyGet leader "displayValue" (.str "")
  let value ← pyGet leader "value" (.int 0)
  let athlete_id ← pyGet athlete "id" (.str "")
  pure (.dict [("rank", rank), ("name", name), ("short_name", short_name),
    ("jersey", jersey), ("position", position), ("headshot", headshot),
    ("display_value", display_value), ("value", value),
    ("athlete_id", athlete_id)])

/-- The category loop of parse_game_leaders. -/
def leader_cats_loop : Dict → List PyVal → Except String Dict
  | leaders, [] => pure leaders
  | leaders, leader_cat :: rest => do
      let cat_name ← pyGet leader_cat "name" (.str "")
      let cat_display_name ← pyGet leader_cat "displayName" (.str "")
      let cat_leaders_v ← pyGet leader_cat "leaders" (.list [])
      let cat_leaders ← asList cat_leaders_v
      let parsed_leaders ← cat_leaders.mapM game_leader_entry
      let entry := PyVal.dict [("display_name", cat_display_name),
        ("leaders", .list parsed_leaders)]
      let l2 ← dsetV leaders cat_name entry
      leader_cats_loop l2 rest

/-- Outer team loop of parse_game_leaders. -/
def game_leaders_outer : Dict → List PyVal → Except String Dict
  | result, [] => pure result
  | result, team_leaders :: rest => do
      let _team ← pyGet team_leaders "team" (.dict [])
      let home_away ← pyGet team_leaders "homeAway" (.str "")
      if !(pyEqStr home_away "home" || pyEqStr home_away "away") then
        game_leaders_outer result rest
      else do
        let cats_v ← pyGet team_leaders "leaders" (.list [])
        let cats ← asList cats_v
        let leaders ← leader_cats_loop [] cats
        let r2 ← dsetV result home_away (.dict leaders)
        game_leaders_outer r2 rest

/-- parse_game_leaders. -/
def parse_game_leaders (leaders_data : PyVal) : Except String PyVal := do
  let ls ← asList leaders_data
  let r ← game_leaders_outer [("away", .dict []), ("home", .dict [])] ls
  pure (.dict r)

/-- One official entry of parse_game_info. -/
def official_entry (off : PyVal) : Except String PyVal := do
  let name ← pyGet off "displayName" (.str "")
  let pos_raw ← pyGet off "position" PyVal.none
  let position ←
    if isTruthy pos_raw then do
      let pd ← pyGet off "position" (.dict [])
      pyGet pd "name" (.str "")
    else pure (.str "")
  let order ← pyGet off "order" (.int 0)
  pure (.dict [("name", name), ("position", position), ("order", order)])

/-- parse_game_info. -/
def parse_game_info (game_info : PyVal) : Except String PyVal := do
  if !isTruthy game_info then pure (.dict [])
  else do
    let venue ← pyGet game_info "venue" (.dict [])
    let weather ← pyGet game_info "weather" (.dict [])
    let officials_v ← pyGet game_info "officials" (.list [])
    let v_id ← pyGet venue "id" (.str "")
    let v_name ← pyGet venue "fullName" (.str "")
    let v_addr ← pyGet venue "address" (.dict [])
    let v_city ← pyGet v_addr "city" (.str "")
    let v_addr2 ← pyGet venue "address" (.dict [])
    let v_state ← pyGet v_addr2 "state" (.str "")
    let v_indoor ← pyGet venue "indoor" (.bool false)
    let v_grass ← pyGet venue "grass" (.bool true)
    let v_capacity ← pyGet venue "capacity" (.int 0)
    let v_images ← pyGet venue "images" (.list [])
    let w_temp ← pyGet weather "temperature" (.int 0)
    let w_cond ← pyGet weather "displayValue" (.str "")
    let w_cond_id ← pyGet weather "conditionId" (.str "")
    let w_link ← pyGet weather "link" (.dict [])
    let w_high ← pyGet weather "highTemperature" (.int 0)
    let w_precip ← pyGet weather "precipitation" (.int 0)
    let w_gust ← pyGet weather "gust" (.int 0)
    let attendance ← pyGet game_info "attendance" (.int 0)
    let officials_l ← asList officials_v
    let officials ← officials_l.mapM official_entry
    pure (.dict [
      ("venue", .dict [("id", v_id), ("name", v_name), ("city", v_city),
        ("state", v_state), ("indoor", v_indoor), ("grass", v_grass),
        ("capacity", v_capacity), ("images", v_images)]),
      ("weather", .dict [("temperature", w_temp), ("condition", w_cond),
        ("condition_id", w_cond_id), ("link", w_link),
        ("high_temperature", w_high), ("precipitation", w_precip),
        ("gust", w_gust)]),
      ("attendance", attendance),
      ("officials", .list officials)])

/-- One article entry of parse_news. -/
def news_entry (article : PyVal) : Except String PyVal := do
  let headline ← pyGet article "headline" (.str "")
  let description ← pyGet article "description" (.str "")
  let published ← pyGet article "published" (.str "")
  let ty ← pyGet article "type" (.str "")
  let premium ← pyGet article "premium" (.bool false)
  let links ← pyGet article "links" (.dict [])
  pure (.dict [("headline", headline), ("description", description),
    ("published", published), ("type", ty), ("premium", premium),
    ("links", links)])

/-- parse_news (at most 5 articles). -/
def parse_news (news_data : PyVal) : Except String PyVal := do
  if !isTruthy news_data then pure (.list [])
  else do
    let articles_v ← pyGet news_data "articles" (.list [])
    let sliced ← pySlice articles_v 5
    let articles ← asList sliced
    let entries ← articles.mapM news_entry
    pure (.list entries)

/-- One entry of parse_win_probability; the away percentage falls back to
1 - homeWinPercentage (default 0.5) when absent. -/
def win_prob_entry (wp : PyVal) : Except String PyVal := do
  let play_id ← pyGet wp "playId" (.str "")
  let seq ← pyGet wp "sequenceNumber" (.int 0)
  let home_wp ← pyGet wp "homeWinPercentage" (.int 0)
  let away_wp ←
    match wp with
    | .dict kvs =>
        if containsKey kvs "awayWinPercentage" then
          pyGet wp "awayWinPercentage" (.int 0)
        else do
          let h ← pyGet wp "homeWinPercentage" (.float (1/2))
          pyRSub 1 h
    | _ => Except.error "TypeError"
  let tie ← pyGet wp "tiePercentage" (.int 0)
  let seconds_left ← pyGet wp "secondsLeft" (.int 0)
  pure (.dict [("play_id", play_id), ("sequence_number", seq),
    ("home_win_percentage", home_wp), ("away_win_percentage", away_wp),
    ("tie_percentage", tie), ("seconds_left", seconds_left)])

/-- parse_win_probability. -/
def parse_win_probability (winprobability : PyVal) : Except String PyVal := do
  if !isTruthy winprobability then pure (.list [])
  else do
    let wps ← asList winprobability
    let entries ← wps.mapM win_prob_entry
    pure (.list entries)

/-- parse_predictor. -/
def parse_predictor (predictor : PyVal) : Except String PyVal := do
  if !isTruthy predictor then pure PyVal.none
  else do
    let home_team ← pyGet predictor "homeTeam" (.dict [])
    let away_team ← pyGet predictor "awayTeam" (.dict [])
    let header ← pyGet predictor "header" (.str "")
    let h_id ← pyGet home_team "id" (.str "")
    let h_gp ← pyGet home_team "gameProjection" (.int 0)
    let h_cl ← pyGet home_team "teamChanceLoss" (.int 0)
    let h_ct ← pyGet home_team "teamChanceTie" (.int 0)
    let a_id ← pyGet away_team "id" (.str "")
    let a_gp ← pyGet away_team "gameProjection" (.int 0)
    let a_cl ← pyGet away_team "teamChanceLoss" (.int 0)
    let a_ct ← pyGet away_team "teamChanceTie" (.int 0)
    pure (.dict [("header", header),
      ("home_team", .dict [("id", h_id), ("game_projection", h_gp),
        ("team_chance_loss", h_cl), ("team_chance_tie", h_ct)]),
      ("away_team", .dict [("id", a_id), ("game_projection", a_gp),
        ("team_chance_loss", a_cl), ("team_chance_tie", a_ct)])])

/-- One group entry of parse_standings. -/
def standings_group_entry (group : PyVal) : Except String PyVal := do
  let name ← pyGet group "name" (.str "")
  let header ← pyGet group "header" (.str "")
  let standings ← pyGet group "standings" (.dict [])
  pure (.dict [("name", name), ("header", header),
    ("standings", standings)])

/-- parse_standings. -/
def parse_standings (standings_data : PyVal) : Except String PyVal := do
  if !isTruthy standings_data then pure PyVal.none
  else do
    let groups_v ← pyGet standings_data "groups" (.list [])
    let groups ← asList groups_v
    let entries ← groups.mapM standings_group_entry
    pure (.list entries)

/-- One video entry of enrich_featured_game_full. -/
def video_entry (v : PyVal) : Except String PyVal := do
  let vid ← pyGet v "id" (.str "")
  let headline ← pyGet v "headline" (.str "")
  let description ← pyGet v "description" (.str "")
  let duration ← pyGet v "duration" (.int 0)
  let thumbnail ← pyGet v "thumbnail" (.str "")
  let links ← pyGet v "links" (.dict [])
  pure (.dict [("id", vid), ("headline", headline),
    ("description", description), ("duration", duration),
    ("thumbnail", thumbnail), ("links", links)])

/-- The conditional leaders block of enrich_featured_game_full. -/
def enrich_leaders (game : Dict) (summary leaders_chk : PyVal) :
    Except String Dict :=
  if isTruthy leaders_chk then do
    let lv ← pyGet summary "leaders" (.list [])
    let gl ← parse_game_leaders lv
    pure (dset game "leaders" gl)
  else pure game

/-- The conditional header block of enrich_featured_game_full. -/
def enrich_header (game : Dict) (header : PyVal) : Except String Dict :=
  if isTruthy header then do
    let hid ← pyGet header "id" (.str "")
    let huid ← pyGet header "uid" (.str "")
    let hseason ← pyGet header "season" (.dict [])
    let hweek ← pyGet header "week" (.int 0)
    let hnote ← pyGet header "gameNote" (.str "")
    let htv ← pyGet header "timeValid" (.bool false)
    pure (dset game "header" (.dict [("id", hid), ("uid", huid),
      ("season", hseason), ("week", hweek), ("game_note", hnote),
      ("time_valid", htv)]))
  else pure game

/-- The conditional videos block of enrich_featured_game_full (10-video
cap). -/
def enrich_videos (game : Dict) (videos : PyVal) : Except String Dict :=
  if isTruthy videos then do
    let sliced ← pySlice videos 10
    let vl ← asList sliced
    let entries ← vl.mapM video_entry
    pure (dset game "videos" (.list entries))
  else pure game

/-- enrich_featured_game_full: in-place mutation of the featured game is
modelled by rebinding the game dict after each keyed assignment. -/
def enrich_featured_game_full (game : Dict) (summary : PyVal) :
    Except String Dict := do
  if !isTruthy summary then pure game
  else do
    let boxscore ← pyGet summary "boxscore" (.dict [])
    let team_stats ← parse_full_team_stats boxscore
    let game := dset game "team_stats" team_stats
    let player_stats ← parse_full_player_stats boxscore
    let game := dset game "player_stats" player_stats
    let sp_v ← pyGet summary "scoringPlays" (.list [])
    let scoring_plays ← parse_scoring_plays sp_v
    let game := dset game "scoring_plays" scoring_plays
    let drives_v ← pyGet summary "drives" PyVal.none
    let drives ← parse_drives drives_v
    let game := dset game "drives" drives
    let sit_v ← pyGet summary "situation" PyVal.none
    let summary_situation ← parse_full_situation sit_v
    let game :=
      if isTruthy summary_situation then
        dset game "situation" summary_situation
      else game
    let leaders_chk ← pyGet summary "leaders" PyVal.none
    let game ← enrich_leaders game summary leaders_chk
    let gi_v ← pyGet summary "gameInfo" PyVal.none
    let game_info ← parse_game_info gi_v
    let game := dset game "game_info" game_info
    let news_v ← pyGet summary "news" PyVal.none
    let news ← parse_news news_v
    let game := dset game "news" news
    let wp_v ← pyGet summary "winprobability" PyVal.none
    let wp ← parse_win_probability wp_v
    let game := dset game "win_probability" wp
    let pred_v ← pyGet summary "predictor" PyVal.none
    let predictor ← parse_predictor pred_v
    let game := dset game "predictor" predictor
    let st_v ← pyGet summary "standings" PyVal.none
    let standings ← parse_standings st_v
    let game := dset game "standings" standings
    let pickcenter ← pyGet summary "pickcenter" (.list [])
    let game := dset game "pickcenter" pickcenter
    let ats ← pyGet summary "againstTheSpread" (.list [])
    let game := dset game "against_the_spread" ats
    let odds ← pyGet summary "odds" (.list [])
    let game := dset game "odds" odds
    let header ← pyGet summary "header" (.dict [])
    let game ← enrich_header game header
    let broadcasts ← pyGet summary "broadcasts" (.list [])
    let game :=
      if isTruthy broadcasts then dset game "broadcasts_full" broadcasts
      else game
    let videos ← pyGet summary "videos" (.list [])
    let game ← enrich_videos game videos
    pure game

/-- Lookup with default on a value that is statically known to be a dict
(Python game.get(key, dflt) where game is the Game dict itself). -/
def dget (d : Dict) (key : String) (dflt : PyVal) : PyVal :=
  (alookup d key).getD dflt

/-- The nested slim_team of slim_game. -/
def slim_team (team : PyVal) : Except String PyVal := do
  let abbr ← pyGet team "abbreviation" (.str "")
  let short_name ← pyGet team "short_name" (.str "")
  let record ← pyGet team "record" (.str "")
  let score ← pyGet team "score" (.int 0)
  pure (.dict [("abbreviation", abbr), ("short_name", short_name),
    ("record", record), ("score", score)])

/-- One period entry of slim_game's slim_periods. -/
def slim_period_entry (p : PyVal) : Except String PyVal := do
  let number ← pyGet p "number" (.int 0)
  let away ← pyGet p "away" (.dict [])
  let home ← pyGet p "home" (.dict [])
  pure (.dict [("number", number), ("away", away), ("home", home)])

/-- The nested slim_periods of slim_game. -/
def slim_periods (periods : PyVal) : Except String PyVal := do
  if !isTruthy periods then pure (.list [])
  else do
    let ps ← asList periods
    let entries ← ps.mapM slim_period_entry
    pure (.list entries)

/-- The nested slim_broadcasters of slim_game. -/
def slim_broadcasters (broadcasters : PyVal) : Except String PyVal := do
  if !isTruthy broadcasters then pure (.list [])
  else do
    let b ←
      if isTruthy broadcasters then pyIndex broadcasters 0
      else pure (.dict [])
    let name ← pyGet b "name" (.str "")
    pure (.list [.dict [("name", name)]])

/-- The non-featured branch of slim_game: builds the minimal-tier dict
from the game without touching it. -/
def slim_game_minimal (game : Dict) : Except String Dict := do
  let status := dget game "status" (.str "")
  let away_team ← slim_team (dget game "away_team" (.dict []))
  let home_team ← slim_team (dget game "home_team" (.dict []))
  let periods_v ← pyGet (dget game "scores" (.dict [])) "periods" (.list [])
  let periods ← slim_periods periods_v
  let scores_total ← pyGet (dget game "scores" (.dict [])) "total" (.dict [])
  let base : Dict := [("status", status),
    ("start_time_pacific", dget game "start_time_pacific" (.str "")),
    ("away_team", away_team), ("home_team", home_team),
    ("scores", .dict [("periods", periods), ("total", scores_total)]),
    ("clock", dget game "clock" (.str "")),
    ("period", dget game "period" (.int 0)),
    ("display_rank", dget game "display_rank" (.int 0))]
  if pyEqStr status "Scheduled" || pyEqStr status "In Progress" then do
    let venue := dget game "venue" (.dict [])
    let v_name ← pyGet venue "name" (.str "")
    let v_city ← pyGet venue "city" (.str "")
    let v_state ← pyGet venue "state" (.str "")
    let slim1 := dset base "venue" (.dict [("name", v_name),
      ("city", v_city), ("state", v_state)])
    let bs ← slim_broadcasters (dget game "broadcasters" (.list []))
    pure (dset slim1 "broadcasters" bs)
  else pure base

/-- slim_game. The pair returned is (the input dict as it stands after the
call, the returned slim dict): the featured branch copies the game
(game.copy()) and pops keys from the copy only, so the first component is
the unchanged input by construction of the translation. -/
def slim_game (game : Dict) (is_featured : Bool) :
    Except String (Dict × Dict) :=
  if is_featured then
    let slim := game
    let slim :=
      if containsKey slim "game_info" then
        derase (derase (derase slim "venue") "weather") "attendance"
      else slim
    pure (game, slim)
  else do
    let slim ← slim_game_minimal game
    pure (game, slim)

/-- Whether g['status'] == s would hold; a game without a status key
matches no status (parse_game always writes one). -/
def statusIs (g : Dict) (s : String) : Bool :=
  match alookup g "status" with
  | some v => pyEqStr v s
  | Option.none => false

/-- The sort key g['start_time_utc'] of rank_games, as the string it is on
every Game the Normalizer produces. -/
def startKey (g : Dict) : String :=
  match alookup g "start_time_utc" with
  | some (.str s) => s
  | _ => ""

/-- Comparison used to sort the Scheduled tier. -/
def schedLe (a b : Dict) : Bool := decide (startKey a ≤ startKey b)

/-- The final enumerate loop of rank_games: game['display_rank'] = i + 1. -/
def assignRanks : Nat → List Dict → List Dict
  | _, [] => []
  | i, g :: rest =>
      dset g "display_rank" (.int ((i : Int) + 1)) :: assignRanks (i + 1) rest

/-- rank_games. random.choice is modelled by the index parameters kIP and
kF (reduced mod the tier length), so quantifying over them covers every
possible draw; list.remove(featured) removes the first element equal to
the chosen one, which is List.erase. -/
def rank_games (kIP kF : Nat) (games : List Dict) : List Dict :=
  let in_progress := games.filter (fun g => statusIs g "In Progress")
  let final := games.filter (fun g => statusIs g "Final")
  let scheduled := games.filter (fun g => statusIs g "Scheduled")
  let tiers :=
    if in_progress ≠ [] then
      let featured := in_progress.getD (kIP % in_progress.length) []
      ([featured] ++ in_progress.erase featured, final)
    else if final ≠ [] then
      let featured := final.getD (kF % final.length) []
      (in_progress, [featured] ++ final.erase featured)
    else (in_progress, final)
  let scheduled := scheduled.mergeSort schedLe
  assignRanks 0 (tiers.1 ++ tiers.2 ++ scheduled)

/-- The sort key g.get('display_rank', 999) used by main; rank_games only
ever writes ints here. -/
def rankKeyD (g : Dict) : Int :=
  match alookup g "display_rank" with
  | some (.int n) => n
  | _ => 999

/-- Comparison used by main's sort by display_rank. -/
def rankLe (a b : Dict) : Bool := decide (rankKeyD a ≤ rankKeyD b)

/-- main's selection of the enrichment candidate: after rank_games, main
sorts by display_rank (default 999) and, when any game exists, takes
element 0 as the sole game whose summary is fetched and enriched. -/
def select_featured (ranked : List Dict) : Option Dict :=
  (ranked.mergeSort rankLe).head?

theorem exc_bind_ok {α β : Type} (x : Except String α)
    (f : α → Except String β) (b : β) :
    (x >>= f) = Except.ok b ↔ ∃ a, x = Except.ok a ∧ f a = Except.ok b := by
  cases x <;> simp [Bind.bind, Except.bind]

theorem exc_pure_ok {α : Type} (a b : α) :
    (pure a : Except String α) = Except.ok b ↔ a = b := by
  simp [pure, Except.pure]

theorem alookup_dset_self (d : Dict) (k : String) (v : PyVal) :
    alookup (dset d k v) k = some v := by
  induction d with
  | nil => simp [dset, alookup]
  | cons kv rest ih =>
      obtain ⟨k2, w⟩ := kv
      by_cases h : k2 = k
      · subst h; simp [dset, alookup]
      · simp [dset, alookup, h, ih]

theorem alookup_dset_ne (d : Dict) (k k2 : String) (v : PyVal) (h : k ≠ k2) :
    alookup (dset d k v) k2 = alookup d k2 := by
  induction d with
  | nil => simp [dset, alookup, h]
  | cons kv rest ih =>
      obtain ⟨k3, w⟩ := kv
      by_cases h3 : k3 = k
      · subst h3; simp [dset, alookup, h]
      · simp only [dset, if_neg h3]
        by_cases h4 : k3 = k2
        · simp [alookup, h4]
        · simp [alookup, h4, ih]

theorem statusIs_dset_rank (g : Dict) (v : PyVal) (s : String) :
    statusIs (dset g "display_rank" v) s = statusIs g s := by
  unfold statusIs
  rw [alookup_dset_ne g "display_rank" "status" v (by decide)]

theorem startKey_dset_rank (g : Dict) (v : PyVal) :
    startKey (dset g "display_rank" v) = startKey g := by
  unfold startKey
  rw [alookup_dset_ne g "display_rank" "start_time_utc" v (by decide)]

theorem statusIs_unique {g : Dict} {s1 s2 : String}
    (h1 : statusIs g s1 = true) (h2 : statusIs g s2 = true) : s1 = s2 := by
  unfold statusIs at h1 h2
  cases hv : alookup g "status" with
  | none => rw [hv] at h1; cases h1
  | some v =>
      rw [hv] at h1 h2
      cases v <;> simp [pyEqStr] at h1 h2
      rw [← h1, ← h2]

theorem assignRanks_append (n : Nat) (l1 l2 : List Dict) :
    assignRanks n (l1 ++ l2) =
      assignRanks n l1 ++ assignRanks (n + l1.length) l2 := by
  induction l1 generalizing n with
  | nil => simp [assignRanks]
  | cons g rest ih =>
      simp only [List.cons_append, assignRanks, List.length_cons, List.append_eq]
      rw [ih (n + 1)]
      have h : n + 1 + rest.length = n + (rest.length + 1) := by omega
      rw [h]

theorem mem_assignRanks {g : Dict} : ∀ {n : Nat} {l : List Dict},
    g ∈ assignRanks n l →
    ∃ g0 ∈ l, ∃ m : Int, g = dset g0 "display_rank" (.int m) := by
  intro n l
  induction l generalizing n with
  | nil => intro h; cases h
  | cons g0 rest ih =>
      intro h
      rcases List.mem_cons.mp h with h1 | h2
      · exact ⟨g0, List.mem_cons_self _ _, (n : Int) + 1, h1⟩
      · obtain ⟨g1, hg1, m, hm⟩ := ih h2
        exact ⟨g1, List.mem_cons_of_mem _ hg1, m, hm⟩

theorem map_rank_assignRanks : ∀ (n : Nat) (l : List Dict),
    (assignRanks n l).map (fun g => alookup g "display_rank") =
      (List.range l.length).map
        (fun i : Nat => some (PyVal.int ((n : Int) + (i : Int) + 1))) := by
  intro n l
  induction l generalizing n with
  | nil => simp [assignRanks]
  | cons g rest ih =>
      simp only [assignRanks, List.map_cons, List.length_cons,
        List.range_succ_eq_map, alookup_dset_self, ih, List.map_map,
        List.map_cons]
      refine List.cons_eq_cons.mpr ⟨by norm_num, ?_⟩
      apply List.map_congr_left
      intro i _
      simp only [Function.comp_apply, Option.some.injEq, PyVal.int.injEq]
      push_cast
      ring

theorem map_startKey_assignRanks : ∀ (n : Nat) (l : List Dict),
    (assignRanks n l).map startKey = l.map startKey := by
  intro n l
  induction l generalizing n with
  | nil => rfl
  | cons g rest ih => simp [assignRanks, startKey_dset_rank, ih]

theorem rankKeyD_assignRanks_lb : ∀ (n : Nat) (l : List Dict) (g : Dict),
    g ∈ assignRanks n l → (n : Int) + 1 ≤ rankKeyD g := by
  intro n l
  induction l generalizing n with
  | nil => intro g h; cases h
  | cons g0 rest ih =>
      intro g h
      rcases List.mem_cons.mp h with h1 | h2
      · rw [h1]; simp [rankKeyD, alookup_dset_self]
      · have := ih (n + 1) g h2
        push_cast at this ⊢
        omega

theorem pairwise_rankLe_assignRanks : ∀ (n : Nat) (l : List Dict),
    List.Pairwise (fun a b => rankLe a b = true) (assignRanks n l) := by
  intro n l
  induction l generalizing n with
  | nil => exact List.Pairwise.nil
  | cons g rest ih =>
      refine List.Pairwise.cons ?_ (ih (n + 1))
      intro g2 hg2
      have h2 := rankKeyD_assignRanks_lb (n + 1) rest g2 hg2
      have h1 : rankKeyD (dset g "display_rank" (.int ((n : Int) + 1))) = (n : Int) + 1 := by
        simp [rankKeyD, alookup_dset_self]
      simp only [rankLe, decide_eq_true_eq, h1]
      push_cast at h2 ⊢
      omega

/-- C4 counterexample: on an event whose status block carries no state code
at all, parse_status yields Scheduled (the code defaults the state to
'pre'), not Unknown as the claim asserts for an absent state code. -/
theorem parse_status_absent_state_is_scheduled :
    parse_status (.dict []) = .ok "Scheduled" ∧
    parse_status (.dict []) ≠ .ok "Unknown" := by
  refine ⟨rfl, fun h => ?_⟩
  rw [show parse_status (.dict []) = .ok "Scheduled" from rfl] at h
  exact absurd (Except.ok.inj h) (by decide)

/-- C4 (amended): parse_status maps a present state code by the fixed
3-way mapping pre to Scheduled, in to In Progress, post to Final, and any
other present state code to Unknown; an absent state code (no type block,
or a type block without a state) defaults to 'pre' and yields Scheduled. -/
theorem parse_status_mapping : ∀ s : String,
    parse_status (.dict [("type", .dict [("state", .str s)])]) =
      .ok (if s = "pre" then "Scheduled"
        else if s = "in" then "In Progress"
        else if s = "post" then "Final" else "Unknown") ∧
    parse_status (.dict []) = .ok "Scheduled" ∧
    parse_status (.dict [("type", .dict [])]) = .ok "Scheduled" := by
  intro s
  refine ⟨?_, rfl, rfl⟩
  by_cases h1 : s = "pre"
  · subst h1; rfl
  · by_cases h2 : s = "in"
    · subst h2; rfl
    · by_cases h3 : s = "post"
      · subst h3; rfl
      · simp [parse_status, pyGet, alookup, pyEqStr, h1, h2, h3]
        rfl

/-- C2: the score extraction int(side.get('score', 0) or 0) yields the
non-negative integers 0, 0, 0, 7, 7 on the upstream score values absent,
null, '', '7' and 7, but on the non-numeric string 'abc' it raises
ValueError instead of falling back to the documented default 0. -/
theorem team_score_cases :
    team_score (.dict []) = .ok 0 ∧
    team_score (.dict [("score", PyVal.none)]) = .ok 0 ∧
    team_score (.dict [("score", .str "")]) = .ok 0 ∧
    team_score (.dict [("score", .str "7")]) = .ok 7 ∧
    team_score (.dict [("score", .int 7)]) = .ok 7 ∧
    team_score (.dict [("score", .str "abc")]) = .error "ValueError" :=
  ⟨rfl, rfl, rfl, rfl, rfl, rfl⟩

/-- C3: parse_game is not total on malformed event records: an event whose
competitions key holds an empty list makes the expression
event.get('competitions', default)[0] raise IndexError, although a fully
empty event record is handled (best-effort defaults). -/
theorem parse_game_raises_on_empty_competitions :
    parse_game (fun s => s) (.dict [("competitions", PyVal.list [])]) =
      .error "IndexError" ∧
    (∃ g, parse_game (fun s => s) (.dict []) = .ok g) ∧
    parse_game (fun s => s)
      (.dict [("competitions",
        .list [.dict [("competitors",
          .list [.dict [("homeAway", .str "home"),
            ("score", .str "abc")]])]])]) = .error "ValueError" :=
  ⟨rfl, ⟨_, rfl⟩, rfl⟩

/-- C6: enrichment fails soft: for every normalized Game and every falsy
summary record (None from a failed fetch, or an empty dict), the Enricher
returns the Game unchanged. -/
theorem enrich_falsy_summary_unchanged :
    ∀ (game : Dict) (summary : PyVal), isTruthy summary = false →
      enrich_featured_game_full game summary = .ok game := by
  intro game summary h
  simp only [enrich_featured_game_full, h]
  rfl

/-- Witness for C6 at the two concrete summary values named by the claim:
None and the empty dict. -/
theorem enrich_falsy_summary_unchanged_witness :
    enrich_featured_game_full [("id", PyVal.str "g")] PyVal.none =
      .ok [("id", PyVal.str "g")] ∧
    enrich_featured_game_full [("id", PyVal.str "g")] (PyVal.dict []) =
      .ok [("id", PyVal.str "g")] :=
  ⟨enrich_falsy_summary_unchanged _ _ rfl,
   enrich_falsy_summary_unchanged _ _ rfl⟩

theorem parse_periods_spec : ∀ (n : Nat) (pairs : List (PyVal × PyVal))
    (ps : List PyVal), parse_periods n pairs = .ok ps →
    ps.length = pairs.length ∧
    ∀ i, i < ps.length → ∃ kvs, ps.get? i = some (PyVal.dict kvs) ∧
      alookup kvs "type" =
        some (.str (if 4 ≤ n + i then "Overtime" else "Regulation")) ∧
      alookup kvs "number" = some (.int ((n : Int) + (i : Int) + 1)) := by
  intro n pairs
  induction pairs generalizing n with
  | nil =>
      intro ps h
      simp only [parse_periods, exc_pure_ok] at h
      subst h
      exact ⟨rfl, fun i hi => absurd hi (by simp)⟩
  | cons pair rest ih =>
      obtain ⟨hP, aP⟩ := pair
      intro ps hps
      simp only [parse_periods, exc_bind_ok, exc_pure_ok] at hps
      obtain ⟨av, -, an, -, hv, -, hn, -, rest2, hrest, hps2⟩ := hps
      subst hps2
      obtain ⟨ihlen, ihidx⟩ := ih (n + 1) rest2 hrest
      constructor
      · simp [ihlen]
      · intro i hi
        cases i with
        | zero =>
            refine ⟨_, rfl, ?_, ?_⟩
            · simp [alookup]
            · simp [alookup]
        | succ j =>
            simp only [List.length_cons, Nat.succ_lt_succ_iff] at hi
            obtain ⟨kvs, h1, h2, h3⟩ := ihidx j hi
            refine ⟨kvs, by simpa using h1, ?_, ?_⟩
            · have harith : n + 1 + j = n + (j + 1) := by omega
              rw [harith] at h2
              exact h2
            · rw [h3]
              congr 2
              push_cast
              ring

/-- C7: whenever the Normalizer's period loop over the zipped linescore
arrays succeeds, the period sequence has exactly min(len home, len away)
entries (so home and away period counts coincide and never exceed either
upstream array), every entry at 0-based index at least 4 is tagged
Overtime and earlier entries Regulation, and entry i carries period
number i + 1. -/
theorem periods_zip_spec (home_ls away_ls : List PyVal) (ps : List PyVal)
    (hok : parse_periods 0 (home_ls.zip away_ls) = .ok ps) :
    ps.length = min home_ls.length away_ls.length ∧
    ∀ i, i < ps.length → ∃ kvs, ps.get? i = some (PyVal.dict kvs) ∧
      alookup kvs "type" =
        some (.str (if 4 ≤ i then "Overtime" else "Regulation")) ∧
      alookup kvs "number" = some (.int ((i : Int) + 1)) := by
  obtain ⟨hlen, hidx⟩ := parse_periods_spec 0 (home_ls.zip away_ls) ps hok
  constructor
  · rw [hlen, List.length_zip]
  · intro i hi
    obtain ⟨kvs, h1, h2, h3⟩ := hidx i hi
    refine ⟨kvs, h1, by simpa using h2, by simpa using h3⟩

/-- A 6-period home linescore sample used as witness input. -/
def sampleLinescores : List PyVal :=
  [.dict [("value", .int 3)], .dict [("value", .int 7)],
   .dict [("value", .int 0)], .dict [("value", .int 10)],
   .dict [("value", .int 3)], .dict [("value", .int 6)]]

/-- Witness for C7: 6 home periods zipped against 5 away periods parse
successfully, and the theorem applies with the success hypothesis
discharged by computation. -/
theorem periods_zip_spec_witness :
    ∃ ps, parse_periods 0 (sampleLinescores.zip (sampleLinescores.take 5)) =
        .ok ps ∧
      ps.length =
        min sampleLinescores.length (sampleLinescores.take 5).length := by
  obtain ⟨ps, hps⟩ : ∃ ps,
      parse_periods 0 (sampleLinescores.zip (sampleLinescores.take 5)) =
        .ok ps := ⟨_, rfl⟩
  exact ⟨ps, hps, (periods_zip_spec _ _ ps hps).1⟩

theorem alookup_derase_ne (d : Dict) (k k2 : String) (h : k ≠ k2) :
    alookup (derase d k) k2 = alookup d k2 := by
  induction d with
  | nil => rfl
  | cons kv rest ih =>
      obtain ⟨k3, w⟩ := kv
      by_cases h3 : k3 = k
      · subst h3
        have h1 : derase ((k3, w) :: rest) k3 = rest := by simp [derase]
        have h2 : alookup ((k3, w) :: rest) k2 = alookup rest k2 := by
          simp [alookup, h]
        rw [h1, h2]
      · simp only [derase, if_neg h3]
        by_cases h4 : k3 = k2
        · simp [alookup, h4]
        · simp [alookup, h4, ih]

theorem alookup_eq_none_of_key_not_mem (d : Dict) (k : String)
    (h : k ∉ d.map Prod.fst) : alookup d k = Option.none := by
  induction d with
  | nil => rfl
  | cons kv rest ih =>
      obtain ⟨k3, w⟩ := kv
      simp only [List.map_cons, List.mem_cons] at h
      push_neg at h
      simp only [alookup, if_neg (fun hh : k3 = k => h.1 hh.symm)]
      exact ih h.2

theorem keys_derase_sublist (d : Dict) (k : String) :
    ((derase d k).map Prod.fst).Sublist (d.map Prod.fst) := by
  induction d with
  | nil => exact List.Sublist.refl _
  | cons kv rest ih =>
      obtain ⟨k3, w⟩ := kv
      by_cases h3 : k3 = k
      · simp only [derase, if_pos h3, List.map_cons]
        exact List.sublist_cons_of_sublist _ (List.Sublist.refl _)
      · simp only [derase, if_neg h3, List.map_cons]
        exact List.Sublist.cons₂ _ ih

theorem alookup_derase_self (d : Dict) (k : String)
    (hnd : (d.map Prod.fst).Nodup) :
    alookup (derase d k) k = Option.none := by
  induction d with
  | nil => rfl
  | cons kv rest ih =>
      obtain ⟨k3, w⟩ := kv
      simp only [List.map_cons, List.nodup_cons] at hnd
      by_cases h3 : k3 = k
      · subst h3
        simp only [derase, if_pos rfl]
        exact alookup_eq_none_of_key_not_mem rest k3 hnd.1
      · simp only [derase, if_neg h3, alookup, if_neg h3]
        exact ih hnd.2

/-- C10: slim_game leaves its input Game untouched for either value of
is_featured (the featured branch copies the dict and pops keys from the
copy only; the minimal branch builds a fresh dict); the dropped featured
fields (venue, weather, attendance when game_info is present) are absent
only from the returned dict. The first component of the result is the
input dict as the call leaves it. -/
theorem slim_game_frame : ∀ (game : Dict) (f : Bool) (out : Dict × Dict),
    slim_game game f = .ok out →
    out.1 = game ∧
    (f = true → (game.map Prod.fst).Nodup →
      containsKey game "game_info" = true →
      alookup out.2 "venue" = Option.none ∧
      alookup out.2 "weather" = Option.none ∧
      alookup out.2 "attendance" = Option.none) := by
  intro game f out h
  cases f with
  | false =>
      simp only [slim_game] at h
      rw [if_neg (by decide : ¬ (false = true))] at h
      rw [exc_bind_ok] at h
      obtain ⟨s, -, hp⟩ := h
      rw [exc_pure_ok] at hp
      rw [← hp]
      exact ⟨rfl, fun hf => absurd hf (by decide)⟩
  | true =>
      simp only [slim_game] at h
      rw [if_pos trivial, exc_pure_ok] at h
      rw [← h]
      refine ⟨rfl, fun _ hnd hgi => ?_⟩
      rw [if_pos hgi]
      have hnd1 : ((derase game "venue").map Prod.fst).Nodup :=
        (keys_derase_sublist game "venue").nodup hnd
      have hnd2 : ((derase (derase game "venue") "weather").map
          Prod.fst).Nodup :=
        (keys_derase_sublist (derase game "venue") "weather").nodup hnd1
      refine ⟨?_, ?_, ?_⟩
      · rw [alookup_derase_ne _ _ _ (by decide),
          alookup_derase_ne _ _ _ (by decide)]
        exact alookup_derase_self game "venue" hnd
      · rw [alookup_derase_ne _ _ _ (by decide)]
        exact alookup_derase_self (derase game "venue") "weather" hnd1
      · exact alookup_derase_self _ "attendance" hnd2

/-- Witness for C10: a concrete featured Game whose dict contains
game_info, venue, weather and attendance; the input comes back unchanged
and the popped keys are gone from the returned dict only. -/
theorem slim_game_frame_witness :
    ∃ out, slim_game [("status", PyVal.str "Final"),
        ("game_info", .dict []), ("venue", .str "V"),
        ("weather", PyVal.none), ("attendance", .int 3)] true = .ok out ∧
      out.1 = [("status", PyVal.str "Final"), ("game_info", PyVal.dict []),
        ("venue", PyVal.str "V"), ("weather", PyVal.none),
        ("attendance", PyVal.int 3)] ∧
      alookup out.2 "venue" = Option.none := by
  obtain ⟨out, hout⟩ : ∃ out, slim_game [("status", PyVal.str "Final"),
      ("game_info", .dict []), ("venue", .str "V"),
      ("weather", PyVal.none), ("attendance", .int 3)] true = .ok out :=
    ⟨_, rfl⟩
  have h := slim_game_frame _ true out hout
  exact ⟨out, hout, h.1, (h.2 rfl (by simp) rfl).1⟩

theorem getD_mod_mem {α : Type} (l : List α) (k : Nat) (d : α)
    (h : l ≠ []) : l.getD (k % l.length) d ∈ l := by
  have hlen : 0 < l.length := List.length_pos.mpr h
  have hlt : k % l.length < l.length := Nat.mod_lt _ hlen
  rw [List.getD_eq_getElem?_getD, List.getElem?_eq_getElem hlt]
  exact List.getElem_mem hlt

theorem rank_games_structure (kIP kF : Nat) (games : List Dict) :
    ∃ l : List Dict, rank_games kIP kF games = assignRanks 0 l ∧
      ∀ g ∈ l, g ∈ games.filter (fun g => statusIs g "In Progress") ∨
        g ∈ games.filter (fun g => statusIs g "Final") ∨
        g ∈ games.filter (fun g => statusIs g "Scheduled") := by
  dsimp only [rank_games]
  by_cases h1 : games.filter (fun g => statusIs g "In Progress") ≠ []
  · rw [if_pos h1]
    refine ⟨_, rfl, ?_⟩
    intro g hg
    simp only [List.mem_append] at hg
    rcases hg with ((hg | hg) | hg) | hg
    · rw [List.mem_singleton.mp hg]
      exact Or.inl (getD_mod_mem _ kIP [] h1)
    · exact Or.inl (List.erase_subset _ _ hg)
    · exact Or.inr (Or.inl hg)
    · exact Or.inr (Or.inr (List.mem_mergeSort.mp hg))
  · rw [if_neg h1]
    by_cases h2 : games.filter (fun g => statusIs g "Final") ≠ []
    · rw [if_pos h2]
      refine ⟨_, rfl, ?_⟩
      intro g hg
      simp only [List.mem_append] at hg
      rcases hg with (hg | (hg | hg)) | hg
      · exact Or.inl hg
      · rw [List.mem_singleton.mp hg]
        exact Or.inr (Or.inl (getD_mod_mem _ kF [] h2))
      · exact Or.inr (Or.inl (List.erase_subset _ _ hg))
      · exact Or.inr (Or.inr (List.mem_mergeSort.mp hg))
    · rw [if_neg h2]
      refine ⟨_, rfl, ?_⟩
      intro g hg
      simp only [List.mem_append] at hg
      rcases hg with (hg | hg) | hg
      · exact Or.inl hg
      · exact Or.inr (Or.inl hg)
      · exact Or.inr (Or.inr (List.mem_mergeSort.mp hg))

/-- C9: every game in rank_games' output has status In Progress, Final or
Scheduled, and a game whose status is Unknown is never in the output (so
it gets no display_rank and never reaches the output document). -/
theorem rank_games_only_ranked_statuses : ∀ (kIP kF : Nat)
    (games : List Dict),
    (∀ g ∈ rank_games kIP kF games,
      statusIs g "In Progress" = true ∨ statusIs g "Final" = true ∨
        statusIs g "Scheduled" = true) ∧
    (∀ g, statusIs g "Unknown" = true → g ∉ rank_games kIP kF games) := by
  intro kIP kF games
  obtain ⟨l, hl, hmem⟩ := rank_games_structure kIP kF games
  have main : ∀ g ∈ rank_games kIP kF games,
      statusIs g "In Progress" = true ∨ statusIs g "Final" = true ∨
        statusIs g "Scheduled" = true := by
    intro g hg
    rw [hl] at hg
    obtain ⟨g0, hg0, m, rfl⟩ := mem_assignRanks hg
    rcases hmem g0 hg0 with h | h | h
    · exact Or.inl (by rw [statusIs_dset_rank]; exact (List.mem_filter.mp h).2)
    · exact Or.inr (Or.inl
        (by rw [statusIs_dset_rank]; exact (List.mem_filter.mp h).2))
    · exact Or.inr (Or.inr
        (by rw [statusIs_dset_rank]; exact (List.mem_filter.mp h).2))
  refine ⟨main, ?_⟩
  intro g hu hg
  rcases main g hg with h | h | h
  · exact absurd (statusIs_unique hu h) (by decide)
  · exact absurd (statusIs_unique hu h) (by decide)
  · exact absurd (statusIs_unique hu h) (by decide)

/-- A Scheduled sample game. -/
def sampleS : Dict :=
  [("status", .str "Scheduled"), ("start_time_utc", .str "2026-01-04T18:00Z")]

/-- An Unknown-status sample game. -/
def sampleU : Dict :=
  [("status", .str "Unknown"), ("start_time_utc", .str "2026-01-01T00:00Z")]

theorem rank_games_sample_eval :
    rank_games 0 0 [sampleS, sampleU] =
      [dset sampleS "display_rank" (.int 1)] := by
  simp [rank_games, statusIs, alookup, pyEqStr, sampleS, sampleU,
    List.mergeSort_singleton, assignRanks]

/-- Witness for C9: the Unknown game is excluded from a concrete run, and
the surviving member of the output has one of the three ranked statuses. -/
theorem rank_games_only_ranked_statuses_witness :
    statusIs sampleU "Unknown" = true ∧
    sampleU ∉ rank_games 0 0 [sampleS, sampleU] ∧
    (statusIs (dset sampleS "display_rank" (.int 1)) "In Progress" = true ∨
      statusIs (dset sampleS "display_rank" (.int 1)) "Final" = true ∨
      statusIs (dset sampleS "display_rank" (.int 1)) "Scheduled" = true) := by
  refine ⟨rfl, (rank_games_only_ranked_statuses 0 0 [sampleS, sampleU]).2
    sampleU rfl, ?_⟩
  refine (rank_games_only_ranked_statuses 0 0 [sampleS, sampleU]).1 _ ?_
  rw [rank_games_sample_eval]
  exact List.mem_singleton.mpr rfl

theorem schedLe_trans : ∀ (a b c : Dict), schedLe a b = true →
    schedLe b c = true → schedLe a c = true := by
  intro a b c h1 h2
  simp only [schedLe, decide_eq_true_eq] at h1 h2 ⊢
  exact le_trans h1 h2

theorem schedLe_total : ∀ (a b : Dict), (schedLe a b || schedLe b a) = true := by
  intro a b
  simp only [schedLe, Bool.or_eq_true, decide_eq_true_eq]
  exact le_total _ _

theorem three_filter_length (games : List Dict) :
    (games.filter (fun g => statusIs g "In Progress" || statusIs g "Final" ||
      statusIs g "Scheduled")).length =
    (games.filter (fun g => statusIs g "In Progress")).length +
    (games.filter (fun g => statusIs g "Final")).length +
    (games.filter (fun g => statusIs g "Scheduled")).length := by
  induction games with
  | nil => rfl
  | cons g rest ih =>
      simp only [List.filter_cons]
      by_cases hip : statusIs g "In Progress" = true
      · have hf : ¬ statusIs g "Final" = true := fun hF =>
          absurd (statusIs_unique hip hF) (by decide)
        have hs : ¬ statusIs g "Scheduled" = true := fun hS =>
          absurd (statusIs_unique hip hS) (by decide)
        simp [hip, hf, hs, ih]
        omega
      · by_cases hfin : statusIs g "Final" = true
        · have hs : ¬ statusIs g "Scheduled" = true := fun hS =>
            absurd (statusIs_unique hfin hS) (by decide)
          simp [hip, hfin, hs, ih]
          omega
        · by_cases hsch : statusIs g "Scheduled" = true
          · simp [hip, hfin, hsch, ih]
            omega
          · simp [hip, hfin, hsch, ih]

theorem rank_games_eq_branches (kIP kF : Nat) (games : List Dict) :
    ∃ ip2 fin2 : List Dict,
      rank_games kIP kF games = assignRanks 0 (ip2 ++ fin2 ++
        (games.filter (fun g => statusIs g "Scheduled")).mergeSort schedLe) ∧
      ip2.length = (games.filter (fun g => statusIs g "In Progress")).length ∧
      fin2.length = (games.filter (fun g => statusIs g "Final")).length ∧
      (∀ g ∈ ip2, statusIs g "In Progress" = true) ∧
      (∀ g ∈ fin2, statusIs g "Final" = true) ∧
      (games.filter (fun g => statusIs g "In Progress") ≠ [] →
        ∃ f ∈ games.filter (fun g => statusIs g "In Progress"),
          ip2 = [f] ++ (games.filter (fun g => statusIs g "In Progress")).erase f ∧
          fin2 = games.filter (fun g => statusIs g "Final")) ∧
      (games.filter (fun g => statusIs g "In Progress") = [] →
        ip2 = [] ∧
        (games.filter (fun g => statusIs g "Final") ≠ [] →
          ∃ f ∈ games.filter (fun g => statusIs g "Final"),
            fin2 = [f] ++ (games.filter (fun g => statusIs g "Final")).erase f) ∧
        (games.filter (fun g => statusIs g "Final") = [] → fin2 = [])) := by
  dsimp only [rank_games]
  by_cases h1 : games.filter (fun g => statusIs g "In Progress") ≠ []
  · rw [if_pos h1]
    set ip := games.filter (fun g => statusIs g "In Progress") with hip
    set f := ip.getD (kIP % ip.length) [] with hf
    have hfmem : f ∈ ip := getD_mod_mem _ kIP [] h1
    refine ⟨[f] ++ ip.erase f, games.filter (fun g => statusIs g "Final"),
      rfl, ?_, rfl, ?_, ?_, ?_, ?_⟩
    · simp only [List.length_append, List.length_singleton,
        List.length_erase_of_mem hfmem]
      have : 0 < ip.length := List.length_pos.mpr h1
      omega
    · intro g hg
      rcases List.mem_append.mp hg with hg | hg
      · rw [List.mem_singleton.mp hg]
        exact (List.mem_filter.mp hfmem).2
      · exact (List.mem_filter.mp (List.erase_subset _ _ hg)).2
    · intro g hg
      exact (List.mem_filter.mp hg).2
    · intro _
      exact ⟨f, hfmem, rfl, rfl⟩
    · intro hcon
      exact absurd hcon h1
  · push_neg at h1
    rw [if_neg (by simp [h1])]
    by_cases h2 : games.filter (fun g => statusIs g "Final") ≠ []
    · rw [if_pos h2]
      set fin := games.filter (fun g => statusIs g "Final") with hfin
      set f := fin.getD (kF % fin.length) [] with hf
      have hfmem : f ∈ fin := getD_mod_mem _ kF [] h2
      refine ⟨games.filter (fun g => statusIs g "In Progress"),
        [f] ++ fin.erase f, rfl, rfl, ?_, ?_, ?_, ?_, ?_⟩
      · simp only [List.length_append, List.length_singleton,
          List.length_erase_of_mem hfmem]
        have : 0 < fin.length := List.length_pos.mpr h2
        omega
      · intro g hg
        exact (List.mem_filter.mp hg).2
      · intro g hg
        rcases List.mem_append.mp hg with hg | hg
        · rw [List.mem_singleton.mp hg]
          exact (List.mem_filter.mp hfmem).2
        · exact (List.mem_filter.mp (List.erase_subset _ _ hg)).2
      · intro hcon
        exact absurd h1 hcon
      · intro _
        exact ⟨h1, fun _ => ⟨f, hfmem, rfl⟩, fun hcon => absurd hcon h2⟩
    · push_neg at h2
      rw [if_neg (by simp [h2])]
      refine ⟨games.filter (fun g => statusIs g "In Progress"),
        games.filter (fun g => statusIs g "Final"),
        rfl, rfl, rfl, ?_, ?_, ?_, ?_⟩
      · intro g hg
        exact (List.mem_filter.mp hg).2
      · intro g hg
        exact (List.mem_filter.mp hg).2
      · intro hcon
        exact absurd h1 hcon
      · intro _
        exact ⟨h1, fun hcon => absurd h2 hcon, fun _ => h2⟩

/-- C1 counterexample: the input list holding a single Unknown-status game
is non-empty, yet rank_games returns the empty list, so no game at all has
display_rank 1 and the assigned ranks are not a permutation of 1..1. -/
theorem rank_games_nonempty_input_no_rank1 :
    ([sampleU] : List Dict) ≠ [] ∧
    rank_games 0 0 [sampleU] = [] ∧
    ¬ ∃ g, g ∈ rank_games 0 0 [sampleU] ∧
        alookup g "display_rank" = some (PyVal.int 1) := by
  have heval : rank_games 0 0 [sampleU] = [] := by
    simp [rank_games, statusIs, alookup, pyEqStr, sampleU, assignRanks]
  refine ⟨by simp, heval, ?_⟩
  rw [heval]
  simp

/-- C1 (amended): for every input and every random draw, the ranks written
by rank_games are exactly 1..M in output order (no gaps, no duplicates),
where M is the number of input games whose status is In Progress, Final or
Scheduled (Unknown games are dropped); when at least one such game exists,
the head of the output is the unique game with display_rank 1; and the
Scheduled games of the output are in non-decreasing order of UTC start
time. -/
theorem rank_games_rank_invariants : ∀ (kIP kF : Nat) (games : List Dict),
    ((rank_games kIP kF games).map (fun g => alookup g "display_rank") =
      (List.range (games.filter (fun g => statusIs g "In Progress" ||
          statusIs g "Final" || statusIs g "Scheduled")).length).map
        (fun i : Nat => some (PyVal.int ((i : Int) + 1)))) ∧
    (games.filter (fun g => statusIs g "In Progress" || statusIs g "Final" ||
        statusIs g "Scheduled") ≠ [] →
      ∃ g, (rank_games kIP kF games).head? = some g ∧
        alookup g "display_rank" = some (PyVal.int 1) ∧
        ∀ g2 ∈ rank_games kIP kF games,
          alookup g2 "display_rank" = some (PyVal.int 1) → g2 = g) ∧
    List.Pairwise (fun a b => startKey a ≤ startKey b)
      ((rank_games kIP kF games).filter (fun g => statusIs g "Scheduled")) := by
  intro kIP kF games
  obtain ⟨ip2, fin2, heq, hlip, hlfin, hipst, hfinst, -, -⟩ :=
    rank_games_eq_branches kIP kF games
  have hlen_all : (ip2 ++ fin2 ++
      (games.filter (fun g => statusIs g "Scheduled")).mergeSort
        schedLe).length =
      (games.filter (fun g => statusIs g "In Progress" || statusIs g "Final"
        || statusIs g "Scheduled")).length := by
    simp only [List.length_append, List.length_mergeSort, hlip, hlfin,
      three_filter_length]
  have hmap : (rank_games kIP kF games).map
      (fun g => alookup g "display_rank") =
      (List.range (games.filter (fun g => statusIs g "In Progress" ||
          statusIs g "Final" || statusIs g "Scheduled")).length).map
        (fun i : Nat => some (PyVal.int ((i : Int) + 1))) := by
    rw [heq, map_rank_assignRanks, hlen_all]
    apply List.map_congr_left
    intro i _
    norm_num
  refine ⟨hmap, ?_, ?_⟩
  · intro hne
    have hM : 0 < (games.filter (fun g => statusIs g "In Progress" ||
        statusIs g "Final" || statusIs g "Scheduled")).length :=
      List.length_pos.mpr hne
    have hlen_out : (rank_games kIP kF games).length =
        (games.filter (fun g => statusIs g "In Progress" ||
          statusIs g "Final" || statusIs g "Scheduled")).length := by
      have hc := congrArg List.length hmap
      simpa using hc
    have hidx : ∀ (j : Nat) (g : Dict),
        (rank_games kIP kF games)[j]? = some g →
        alookup g "display_rank" = some (PyVal.int ((j : Int) + 1)) := by
      intro j g hg
      have hjlt : j < (rank_games kIP kF games).length := by
        rcases List.getElem?_eq_some_iff.mp hg with ⟨h, -⟩
        exact h
      have h1 := congrArg (fun l => l[j]?) hmap
      simp only [List.getElem?_map] at h1
      rw [hg, List.getElem?_range (by omega : j < (games.filter
        (fun g => statusIs g "In Progress" || statusIs g "Final" ||
          statusIs g "Scheduled")).length)] at h1
      simpa using h1
    cases houtnil : rank_games kIP kF games with
    | nil =>
        exfalso
        rw [houtnil] at hlen_out
        simp at hlen_out
        omega
    | cons a l =>
        have hget0 : (rank_games kIP kF games)[0]? = some a := by
          rw [houtnil]
          simp
        refine ⟨a, rfl, ?_, ?_⟩
        · simpa using hidx 0 a hget0
        · intro g2 hg2 hrank2
          rw [← houtnil] at hg2
          obtain ⟨j, hgj⟩ := List.mem_iff_getElem?.mp hg2
          have hj0 := hidx j g2 hgj
          rw [hrank2] at hj0
          have hj1 : (1 : Int) = (j : Int) + 1 :=
            PyVal.int.inj (Option.some.inj hj0)
          have hj_eq : j = 0 := by omega
          subst hj_eq
          rw [hget0] at hgj
          exact (Option.some.inj hgj).symm
  · rw [heq]
    rw [assignRanks_append, assignRanks_append]
    have hfilA : ∀ m : Nat, (assignRanks m ip2).filter
        (fun g => statusIs g "Scheduled") = [] := by
      intro m
      rw [List.filter_eq_nil_iff]
      intro x hx
      obtain ⟨g0, hg0, m2, rfl⟩ := mem_assignRanks hx
      rw [statusIs_dset_rank]
      intro hcon
      exact absurd (statusIs_unique (hipst g0 hg0) hcon) (by decide)
    have hfilB : ∀ m : Nat, (assignRanks m fin2).filter
        (fun g => statusIs g "Scheduled") = [] := by
      intro m
      rw [List.filter_eq_nil_iff]
      intro x hx
      obtain ⟨g0, hg0, m2, rfl⟩ := mem_assignRanks hx
      rw [statusIs_dset_rank]
      intro hcon
      exact absurd (statusIs_unique (hfinst g0 hg0) hcon) (by decide)
    have hfilC : ∀ m : Nat, (assignRanks m
        ((games.filter (fun g => statusIs g "Scheduled")).mergeSort
          schedLe)).filter (fun g => statusIs g "Scheduled") =
        assignRanks m
        ((games.filter (fun g => statusIs g "Scheduled")).mergeSort
          schedLe) := by
      intro m
      rw [List.filter_eq_self]
      intro x hx
      obtain ⟨g0, hg0, m2, rfl⟩ := mem_assignRanks hx
      rw [statusIs_dset_rank]
      exact (List.mem_filter.mp (List.mem_mergeSort.mp hg0)).2
    rw [List.filter_append, List.filter_append, hfilA, hfilB, hfilC]
    simp only [List.nil_append]
    have hsorted : List.Pairwise (fun a b => schedLe a b = true)
        ((games.filter (fun g => statusIs g "Scheduled")).mergeSort
          schedLe) :=
      List.sorted_mergeSort schedLe_trans schedLe_total _
    have hsorted2 : List.Pairwise (fun a b => startKey a ≤ startKey b)
        ((games.filter (fun g => statusIs g "Scheduled")).mergeSort
          schedLe) := by
      refine hsorted.imp ?_
      intro a b hab
      simpa [schedLe] using hab
    have h1 : List.Pairwise (fun a b : String => a ≤ b)
        (((games.filter (fun g => statusIs g "Scheduled")).mergeSort
          schedLe).map startKey) := List.pairwise_map.mpr hsorted2
    rw [← map_startKey_assignRanks] at h1
    exact List.pairwise_map.mp h1

/-- Witness for C1 at a concrete input holding one Scheduled and one
Unknown game: the non-emptiness hypothesis is discharged by computation
and the amended invariant applies. -/
theorem rank_games_rank_invariants_witness :
    ([sampleS, sampleU].filter (fun g => statusIs g "In Progress" ||
        statusIs g "Final" || statusIs g "Scheduled") ≠ []) ∧
    (∃ g, (rank_games 0 0 [sampleS, sampleU]).head? = some g ∧
      alookup g "display_rank" = some (PyVal.int 1) ∧
      ∀ g2 ∈ rank_games 0 0 [sampleS, sampleU],
        alookup g2 "display_rank" = some (PyVal.int 1) → g2 = g) := by
  have hne : [sampleS, sampleU].filter (fun g => statusIs g "In Progress" ||
      statusIs g "Final" || statusIs g "Scheduled") ≠ [] := by
    simp [sampleS, sampleU, statusIs, alookup, pyEqStr]
  exact ⟨hne, (rank_games_rank_invariants 0 0 [sampleS, sampleU]).2.1 hne⟩

/-- C5: for every random draw, if the In Progress tier is non-empty, some
member f of it is placed at the front of that tier (the rest in original
order, f removed at its first equal occurrence) and the output is the rank
assignment over InProgress ++ Final ++ Scheduled-sorted; otherwise the same
happens in the Final tier if non-empty; otherwise only the Scheduled sort
happens. Downstream, main sorts by display_rank and enriches element 0
only: select_featured returns exactly the head of rank_games' output, and
that head always carries display_rank 1. -/
theorem rank_games_featured_first : ∀ (kIP kF : Nat) (games : List Dict),
    (games.filter (fun g => statusIs g "In Progress") ≠ [] →
      ∃ f ∈ games.filter (fun g => statusIs g "In Progress"),
        rank_games kIP kF games = assignRanks 0
          (([f] ++ (games.filter (fun g => statusIs g "In Progress")).erase f)
            ++ games.filter (fun g => statusIs g "Final")
            ++ (games.filter (fun g => statusIs g "Scheduled")).mergeSort
                 schedLe)) ∧
    (games.filter (fun g => statusIs g "In Progress") = [] →
      games.filter (fun g => statusIs g "Final") ≠ [] →
      ∃ f ∈ games.filter (fun g => statusIs g "Final"),
        rank_games kIP kF games = assignRanks 0
          (([f] ++ (games.filter (fun g => statusIs g "Final")).erase f)
            ++ (games.filter (fun g => statusIs g "Scheduled")).mergeSort
                schedLe)) ∧
    (games.filter (fun g => statusIs g "In Progress") = [] →
      games.filter (fun g => statusIs g "Final") = [] →
      rank_games kIP kF games = assignRanks 0
        ((games.filter (fun g => statusIs g "Scheduled")).mergeSort
          schedLe)) ∧
    (select_featured (rank_games kIP kF games) =
      (rank_games kIP kF games).head?) ∧
    (∀ g, (rank_games kIP kF games).head? = some g →
      alookup g "display_rank" = some (PyVal.int 1)) := by
  intro kIP kF games
  obtain ⟨ip2, fin2, heq, hlip, hlfin, hipst, hfinst, hbr1, hbr2⟩ :=
    rank_games_eq_branches kIP kF games
  refine ⟨?_, ?_, ?_, ?_, ?_⟩
  · intro hne
    obtain ⟨f, hf, hip2, hfin2⟩ := hbr1 hne
    refine ⟨f, hf, ?_⟩
    rw [heq, hip2, hfin2]
  · intro hip hfinne
    obtain ⟨hip2, hrest⟩ := hbr2 hip
    obtain ⟨f, hf, hfin2⟩ := hrest.1 hfinne
    refine ⟨f, hf, ?_⟩
    rw [heq, hip2, hfin2]
    simp
  · intro hip hfin
    obtain ⟨hip2, hrest⟩ := hbr2 hip
    have hfin2 := hrest.2 hfin
    rw [heq, hip2, hfin2]
    simp
  · rw [heq]
    unfold select_featured
    rw [List.mergeSort_of_sorted (pairwise_rankLe_assignRanks 0 _)]
  · intro g hg
    rw [heq] at hg
    cases hl : ip2 ++ fin2 ++
        (games.filter (fun g => statusIs g "Scheduled")).mergeSort
          schedLe with
    | nil =>
        rw [hl] at hg
        cases hg
    | cons x xs =>
        rw [hl] at hg
        simp only [assignRanks, List.head?_cons, Option.some.injEq] at hg
        rw [← hg, alookup_dset_self]
        norm_num

/-- An In Progress sample game. -/
def sampleIP : Dict :=
  [("status", .str "In Progress"),
   ("start_time_utc", .str "2026-01-04T20:00Z")]

/-- A Final sample game. -/
def sampleF : Dict :=
  [("status", .str "Final"), ("start_time_utc", .str "2026-01-03T20:00Z")]

/-- Witness for C5: each branch hypothesis is discharged at a concrete
input (an In Progress game present; only a Final game; only Scheduled),
including the head-of-output rank-1 fact at a computed output. -/
theorem rank_games_featured_first_witness :
    ([sampleIP, sampleS].filter (fun g => statusIs g "In Progress") ≠ [] ∧
      ∃ f ∈ [sampleIP, sampleS].filter (fun g => statusIs g "In Progress"),
        rank_games 2 0 [sampleIP, sampleS] = assignRanks 0
          (([f] ++ ([sampleIP, sampleS].filter
              (fun g => statusIs g "In Progress")).erase f)
            ++ [sampleIP, sampleS].filter (fun g => statusIs g "Final")
            ++ ([sampleIP, sampleS].filter
              (fun g => statusIs g "Scheduled")).mergeSort schedLe)) ∧
    ([sampleF].filter (fun g => statusIs g "In Progress") = [] ∧
      [sampleF].filter (fun g => statusIs g "Final") ≠ [] ∧
      ∃ f ∈ [sampleF].filter (fun g => statusIs g "Final"),
        rank_games 0 3 [sampleF] = assignRanks 0
          (([f] ++ ([sampleF].filter
              (fun g => statusIs g "Final")).erase f)
            ++ ([sampleF].filter
              (fun g => statusIs g "Scheduled")).mergeSort schedLe)) ∧
    ([sampleS].filter (fun g => statusIs g "In Progress") = [] ∧
      [sampleS].filter (fun g => statusIs g "Final") = [] ∧
      rank_games 0 0 [sampleS] = assignRanks 0
        (([sampleS].filter
          (fun g => statusIs g "Scheduled")).mergeSort schedLe)) ∧
    ((rank_games 0 0 [sampleS, sampleU]).head? =
        some (dset sampleS "display_rank" (.int 1)) ∧
      alookup (dset sampleS "display_rank" (.int 1)) "display_rank" =
        some (PyVal.int 1)) := by
  have h1 : [sampleIP, sampleS].filter
      (fun g => statusIs g "In Progress") ≠ [] := by
    simp [sampleIP, sampleS, statusIs, alookup, pyEqStr]
  have h2a : [sampleF].filter (fun g => statusIs g "In Progress") = [] := by
    simp [sampleF, statusIs, alookup, pyEqStr]
  have h2b : [sampleF].filter (fun g => statusIs g "Final") ≠ [] := by
    simp [sampleF, statusIs, alookup, pyEqStr]
  have h3a : [sampleS].filter (fun g => statusIs g "In Progress") = [] := by
    simp [sampleS, statusIs, alookup, pyEqStr]
  have h3b : [sampleS].filter (fun g => statusIs g "Final") = [] := by
    simp [sampleS, statusIs, alookup, pyEqStr]
  have h4 : (rank_games 0 0 [sampleS, sampleU]).head? =
      some (dset sampleS "display_rank" (.int 1)) := by
    rw [rank_games_sample_eval]
    rfl
  exact ⟨⟨h1, (rank_games_featured_first 2 0 [sampleIP, sampleS]).1 h1⟩,
    ⟨h2a, h2b, (rank_games_featured_first 0 3 [sampleF]).2.1 h2a h2b⟩,
    ⟨h3a, h3b, (rank_games_featured_first 0 0 [sampleS]).2.2.1 h3a h3b⟩,
    ⟨h4, (rank_games_featured_first 0 0 [sampleS, sampleU]).2.2.2.2 _ h4⟩⟩

/-- C8 counterexample: enriching a Final game with a summary record that
carries a truthy situation block leaves the game with a non-null
situation although its status is Final: the enricher replaces situation
from the summary without consulting the status. -/
theorem enrich_sets_situation_on_final :
    ∃ g1, enrich_featured_game_full
        [("status", PyVal.str "Final"), ("situation", PyVal.none)]
        (PyVal.dict [("situation", PyVal.dict [("down", PyVal.int 1)])]) =
        .ok g1 ∧
      alookup g1 "status" = some (PyVal.str "Final") ∧
      ∃ sit, alookup g1 "situation" = some sit ∧ sit ≠ PyVal.none :=
  ⟨_, rfl, rfl, _, rfl, fun h => PyVal.noConfusion h⟩

theorem compute_situation_of_ne (st : String) (c ha aa sit : PyVal)
    (hok : compute_situation st c ha aa = .ok sit)
    (hne : st ≠ "In Progress") : sit = PyVal.none := by
  unfold compute_situation at hok
  rw [if_neg hne, exc_pure_ok] at hok
  exact hok.symm

set_option maxRecDepth 8000 in
theorem parse_game_situation_none (tz : String → String) (ev : PyVal)
    (g : Dict) (v : PyVal) (hok : parse_game tz ev = .ok g)
    (hv : alookup g "situation" = some v) (hne : v ≠ PyVal.none) :
    statusIs g "In Progress" = true := by
  rw [parse_game] at hok
  simp only [exc_bind_ok, exc_pure_ok] at hok
  iterate 19 obtain ⟨_, -, hok⟩ := hok
  obtain ⟨st, -, hok⟩ := hok
  iterate 5 obtain ⟨_, -, hok⟩ := hok
  obtain ⟨sit, hsit, hok⟩ := hok
  iterate 49 obtain ⟨_, -, hok⟩ := hok
  have hsitlook : alookup g "situation" = some sit := by
    rw [← hok]
    simp [alookup]
  have hstatlook : alookup g "status" = some (.str st) := by
    rw [← hok]
    simp [alookup]
  have hveq : v = sit := by
    rw [hv] at hsitlook
    exact Option.some.inj hsitlook
  by_cases hst : st = "In Progress"
  · simp [statusIs, hstatlook, pyEqStr, hst]
  · exact absurd (hveq.trans (compute_situation_of_ne st _ _ _ sit hsit hst))
      hne

theorem parse_full_situation_falsy (v : PyVal) (h : isTruthy v = false) :
    parse_full_situation v = .ok PyVal.none := by
  unfold parse_full_situation
  rw [h]
  rfl

theorem enrich_leaders_situation (game : Dict) (s c : PyVal) (g2 : Dict)
    (h : enrich_leaders game s c = .ok g2) :
    alookup g2 "situation" = alookup game "situation" := by
  unfold enrich_leaders at h
  split at h
  · simp only [exc_bind_ok, exc_pure_ok] at h
    obtain ⟨lv, -, gl, -, hp⟩ := h
    rw [← hp, alookup_dset_ne _ "leaders" "situation" _ (by decide)]
  · rw [exc_pure_ok] at h
    rw [h]

theorem enrich_header_situation (game : Dict) (hd : PyVal) (g2 : Dict)
    (h : enrich_header game hd = .ok g2) :
    alookup g2 "situation" = alookup game "situation" := by
  unfold enrich_header at h
  split at h
  · simp only [exc_bind_ok, exc_pure_ok] at h
    obtain ⟨_, -, _, -, _, -, _, -, _, -, _, -, hp⟩ := h
    rw [← hp, alookup_dset_ne _ "header" "situation" _ (by decide)]
  · rw [exc_pure_ok] at h
    rw [h]

theorem enrich_videos_situation (game : Dict) (vs : PyVal) (g2 : Dict)
    (h : enrich_videos game vs = .ok g2) :
    alookup g2 "situation" = alookup game "situation" := by
  unfold enrich_videos at h
  split at h
  · simp only [exc_bind_ok, exc_pure_ok] at h
    obtain ⟨_, -, _, -, _, -, hp⟩ := h
    rw [← hp, alookup_dset_ne _ "videos" "situation" _ (by decide)]
  · rw [exc_pure_ok] at h
    rw [h]

/-- Whether a summary record supplies no truthy situation block (the
condition under which the enricher leaves the situation field alone). -/
def summary_situation_absent : PyVal → Bool
  | .dict kvs => !isTruthy ((alookup kvs "situation").getD PyVal.none)
  | _ => true

set_option maxRecDepth 8000 in
theorem enrich_situation_preserved_aux (game : Dict) (s : PyVal) (g1 : Dict)
    (hok : enrich_featured_game_full game s = .ok g1)
    (habs : summary_situation_absent s = true) :
    alookup g1 "situation" = alookup game "situation" := by
  by_cases htr : isTruthy s = true
  case neg =>
    have hf : isTruthy s = false := by
      cases h : isTruthy s
      · rfl
      · exact absurd h htr
    unfold enrich_featured_game_full at hok
    rw [hf, if_pos (show (!false) = true from rfl), exc_pure_ok] at hok
    rw [hok]
  case pos =>
    cases s with
    | none => simp [isTruthy] at htr
    | bool b =>
        unfold enrich_featured_game_full at hok
        rw [htr, if_neg (by decide : ¬ ((!true) = true))] at hok
        simp only [exc_bind_ok] at hok
        obtain ⟨a, ha, -⟩ := hok
        simp [pyGet] at ha
    | int n =>
        unfold enrich_featured_game_full at hok
        rw [htr, if_neg (by decide : ¬ ((!true) = true))] at hok
        simp only [exc_bind_ok] at hok
        obtain ⟨a, ha, -⟩ := hok
        simp [pyGet] at ha
    | float q =>
        unfold enrich_featured_game_full at hok
        rw [htr, if_neg (by decide : ¬ ((!true) = true))] at hok
        simp only [exc_bind_ok] at hok
        obtain ⟨a, ha, -⟩ := hok
        simp [pyGet] at ha
    | str t =>
        unfold enrich_featured_game_full at hok
        rw [htr, if_neg (by decide : ¬ ((!true) = true))] at hok
        simp only [exc_bind_ok] at hok
        obtain ⟨a, ha, -⟩ := hok
        simp [pyGet] at ha
    | list xs =>
        unfold enrich_featured_game_full at hok
        rw [htr, if_neg (by decide : ¬ ((!true) = true))] at hok
        simp only [exc_bind_ok] at hok
        obtain ⟨a, ha, -⟩ := hok
        simp [pyGet] at ha
    | dict kvs =>
        unfold enrich_featured_game_full at hok
        rw [htr, if_neg (by decide : ¬ ((!true) = true))] at hok
        simp only [exc_bind_ok, exc_pure_ok] at hok
        obtain ⟨_, -, _, -, _, -, _, -, _, -, _, -, _, -, sv, hsv,
          ssit, h9, _, -, gL, h11, _, -, _, -, _, -, _, -, _, -, _, -,
          _, -, _, -, _, -, _, -, _, -, _, -, _, -, _, -, gH, h26,
          _, -, _, -, gV, h29, heqg⟩ := hok
        have hsv2 : sv = (alookup kvs "situation").getD PyVal.none := by
          rw [show pyGet (PyVal.dict kvs) "situation" PyVal.none =
            pure ((alookup kvs "situation").getD PyVal.none) from rfl,
            exc_pure_ok] at hsv
          exact hsv.symm
        have habs2 : isTruthy sv = false := by
          rw [hsv2]
          simpa [summary_situation_absent] using habs
        have h9b : ssit = PyVal.none := by
          rw [parse_full_situation_falsy sv habs2] at h9
          exact (Except.ok.inj h9).symm
        rw [← heqg]
        rw [enrich_videos_situation _ _ _ h29]
        split
        all_goals try rw [alookup_dset_ne _ "broadcasts_full" "situation" _
          (by decide)]
        all_goals
          rw [enrich_header_situation _ _ _ h26,
            alookup_dset_ne _ "odds" "situation" _ (by decide),
            alookup_dset_ne _ "against_the_spread" "situation" _ (by decide),
            alookup_dset_ne _ "pickcenter" "situation" _ (by decide),
            alookup_dset_ne _ "standings" "situation" _ (by decide),
            alookup_dset_ne _ "predictor" "situation" _ (by decide),
            alookup_dset_ne _ "win_probability" "situation" _ (by decide),
            alookup_dset_ne _ "news" "situation" _ (by decide),
            alookup_dset_ne _ "game_info" "situation" _ (by decide),
            enrich_leaders_situation _ _ _ _ h11, h9b,
            if_neg (by decide : ¬ (isTruthy PyVal.none = true)),
            alookup_dset_ne _ "drives" "situation" _ (by decide),
            alookup_dset_ne _ "scoring_plays" "situation" _ (by decide),
            alookup_dset_ne _ "player_stats" "situation" _ (by decide),
            alookup_dset_ne _ "team_stats" "situation" _ (by decide)]

/-- C8 (amended): after normalization the situation field is None unless
the status is In Progress; enrichment preserves the situation field
whenever the summary record supplies no truthy situation block — when it
does supply one, the enricher replaces situation regardless of status. -/
theorem situation_only_when_in_progress :
    (∀ (tz : String → String) (ev : PyVal) (g : Dict) (v : PyVal),
      parse_game tz ev = .ok g → alookup g "situation" = some v →
      v ≠ PyVal.none → statusIs g "In Progress" = true) ∧
    (∀ (game : Dict) (s : PyVal) (g1 : Dict),
      enrich_featured_game_full game s = .ok g1 →
      summary_situation_absent s = true →
      alookup g1 "situation" = alookup game "situation") :=
  ⟨parse_game_situation_none, enrich_situation_preserved_aux⟩

/-- Witness for C8: a live event with a situation block parses to an
In Progress game with a non-null situation, and enrichment with a
situation-free summary leaves a Final game's situation untouched. -/
theorem situation_only_when_in_progress_witness :
    (∃ g v, parse_game (fun s => s)
        (.dict [("competitions", .list [.dict [
          ("status", .dict [("type", .dict [("state", .str "in")])]),
          ("situation", .dict [("down", .int 1)])]])]) = .ok g ∧
      alookup g "situation" = some v ∧ v ≠ PyVal.none ∧
      statusIs g "In Progress" = true) ∧
    (∃ g1, enrich_featured_game_full
        [("status", PyVal.str "Final"), ("situation", PyVal.none)]
        (PyVal.dict [("x", PyVal.int 1)]) = .ok g1 ∧
      summary_situation_absent (PyVal.dict [("x", PyVal.int 1)]) = true ∧
      alookup g1 "situation" =
        alookup [("status", PyVal.str "Final"), ("situation", PyVal.none)]
          "situation") := by
  constructor
  · refine ⟨_, _, rfl, rfl, fun h => PyVal.noConfusion h, ?_⟩
    exact situation_only_when_in_progress.1 (fun s => s)
      (.dict [("competitions", .list [.dict [
        ("status", .dict [("type", .dict [("state", .str "in")])]),
        ("situation", .dict [("down", .int 1)])]])]) _ _ rfl rfl
      (fun h => PyVal.noConfusion h)
  · refine ⟨_, rfl, rfl, ?_⟩
    exact situation_only_when_in_progress.2
      [("status", PyVal.str "Final"), ("situation", PyVal.none)]
      (PyVal.dict [("x", PyVal.int 1)]) _ rfl rfl
